import Mathlib

/- Shallow embedding of the OneWireNg platform GPIO adapters
   (`OneWireNg_ArduinoMegaAVR`, `OneWireNg_ArduinoESP32`,
   `OneWireNg_ArduinoSTM32`, `OneWireNg_ArduinoSAM`) and of the
   Dallas/Maxim CRC-8 engine consumed by the protocol core. -/

namespace OneWireNg

/-- Modelled from the spec: the GPIO line designator consumed by the
bit-bang engine (declared in the base header, which is not among the
sources at hand). `GPIO_DTA` names the 1-wire data line; any other
designator stands for the power-control line. -/
inductive GpioType where
  | GPIO_DTA
  | GPIO_CTRL_PWR
  deriving DecidableEq, Repr

/-- Bit-clear of all bits of `msk` in `reg` (the effect of writing `msk`
to a hardware clear register such as `OUTCLR`/`DIRCLR`/`W1TC`/`CODR`). -/
def bitClr (reg msk : Nat) : Nat := Nat.ldiff reg msk

namespace MegaAVR

/-- Register bank of one megaAVR I/O port, restricted to the registers the
adapter touches: input (`IN`), output latch (`OUT`, written through the
`OUTSET`/`OUTCLR` access registers) and direction (`DIR`, written through
`DIRSET`/`DIRCLR`). -/
structure PORT_t where
  IN : Nat
  OUT : Nat
  DIR : Nat
  deriving DecidableEq, Repr

/-- Per-line descriptor `{ uint8_t bmsk; volatile PORT_t *port; }`: the pin
bit mask together with the contents of the pointed-to port bank. -/
structure Gpio where
  bmsk : Nat
  port : PORT_t
  deriving DecidableEq, Repr

/-- Macro `__READ_GPIO(gs)`: `(gs.port->IN & gs.bmsk) != 0`. -/
def READ_GPIO_op (gs : Gpio) : Bool := (gs.port.IN &&& gs.bmsk) != 0

/-- Macro `__WRITE_GPIO(gs, st)`: `OUTSET = bmsk` when `st` is non-zero,
else `OUTCLR = bmsk`. -/
def WRITE_GPIO_op (gs : Gpio) (st : Nat) : Gpio :=
  if st != 0 then { gs with port := { gs.port with OUT := gs.port.OUT ||| gs.bmsk } }
  else { gs with port := { gs.port with OUT := bitClr gs.port.OUT gs.bmsk } }

/-- Macro `__GPIO_AS_INPUT(gs)`: `DIRCLR = bmsk`. -/
def GPIO_AS_INPUT (gs : Gpio) : Gpio :=
  { gs with port := { gs.port with DIR := bitClr gs.port.DIR gs.bmsk } }

/-- Macro `__GPIO_AS_OUTPUT(gs)`: `DIRSET = bmsk`. -/
def GPIO_AS_OUTPUT (gs : Gpio) : Gpio :=
  { gs with port := { gs.port with DIR := gs.port.DIR ||| gs.bmsk } }

/-- Constant `PORT_INVEN_bm` (inverted I/O enable bit of `PINnCTRL`). -/
def PORT_INVEN_bm : Nat := 0x80

/-- Constant `PORT_PULLUPEN_bm` (pull-up enable bit of `PINnCTRL`). -/
def PORT_PULLUPEN_bm : Nat := 0x08

/-- Object state of `OneWireNg_ArduinoMegaAVR`: the flag passed to the
`OneWireNg_BitBang` base constructor, the spec-modelled "power-control
line configured" flag maintained by `setupPwrCtrlGpio`, the `_dtaGpio`
and `_pwrCtrlGpio` descriptors and the `PINnCTRL` register contents of
their pins. -/
structure State where
  extPwrCtrl : Bool
  pwrCtrlConfigured : Bool
  dtaGpio : Gpio
  dtaCtrl : Nat
  pwrCtrlGpio : Gpio
  pwrCtrlCtrl : Nat
  deriving DecidableEq, Repr

/-- Method `readGpioIn`: ignores its designator (`UNUSED(gpio)`) and
returns `__READ_GPIO(_dtaGpio)` (C++ bool-to-int conversion: 0 or 1). -/
def State.readGpioIn (s : State) (gpio : GpioType) : Nat :=
  let _ := gpio
  if READ_GPIO_op s.dtaGpio then 1 else 0

/-- Method `writeGpioOut`: writes the data line when the designator is
`GPIO_DTA`, the power-control line otherwise. -/
def State.writeGpioOut (s : State) (gpio : GpioType) (state : Nat) : State :=
  if gpio = GpioType.GPIO_DTA then
    { s with dtaGpio := WRITE_GPIO_op s.dtaGpio state }
  else
    { s with pwrCtrlGpio := WRITE_GPIO_op s.pwrCtrlGpio state }

/-- Method `setGpioAsInput`: ignores its designator (`UNUSED(gpio)`) and
reconfigures the data line as input. -/
def State.setGpioAsInput (s : State) (gpio : GpioType) : State :=
  let _ := gpio
  { s with dtaGpio := GPIO_AS_INPUT s.dtaGpio }

/-- Method `setGpioAsOutput`: writes the requested level and then switches
the chosen line's direction to output. -/
def State.setGpioAsOutput (s : State) (gpio : GpioType) (state : Nat) : State :=
  if gpio = GpioType.GPIO_DTA then
    let s1 := { s with dtaGpio := WRITE_GPIO_op s.dtaGpio state }
    { s1 with dtaGpio := GPIO_AS_OUTPUT s1.dtaGpio }
  else
    let s1 := { s with pwrCtrlGpio := WRITE_GPIO_op s.pwrCtrlGpio state }
    { s1 with pwrCtrlGpio := GPIO_AS_OUTPUT s1.pwrCtrlGpio }

/-- Identifies which of the adapter's two lines a primitive step acts on. -/
inductive Line where
  | dta
  | pwr
  deriving DecidableEq, Repr

/-- Primitive register operation of the megaAVR adapter, used to expose the
order in which a method performs its register accesses. -/
inductive Step where
  | WRITE_GPIO_op (line : Line) (st : Nat)
  | GPIO_AS_INPUT (line : Line)
  | GPIO_AS_OUTPUT (line : Line)
  deriving DecidableEq, Repr

/-- Effect of one primitive step on the adapter state. -/
def Step.apply (s : State) : Step → State
  | .WRITE_GPIO_op .dta st =>
      { s with dtaGpio := OneWireNg.MegaAVR.WRITE_GPIO_op s.dtaGpio st }
  | .WRITE_GPIO_op .pwr st =>
      { s with pwrCtrlGpio := OneWireNg.MegaAVR.WRITE_GPIO_op s.pwrCtrlGpio st }
  | .GPIO_AS_INPUT .dta =>
      { s with dtaGpio := OneWireNg.MegaAVR.GPIO_AS_INPUT s.dtaGpio }
  | .GPIO_AS_INPUT .pwr =>
      { s with pwrCtrlGpio := OneWireNg.MegaAVR.GPIO_AS_INPUT s.pwrCtrlGpio }
  | .GPIO_AS_OUTPUT .dta =>
      { s with dtaGpio := OneWireNg.MegaAVR.GPIO_AS_OUTPUT s.dtaGpio }
  | .GPIO_AS_OUTPUT .pwr =>
      { s with pwrCtrlGpio := OneWireNg.MegaAVR.GPIO_AS_OUTPUT s.pwrCtrlGpio }

/-- Source-ordered sequence of primitive steps performed by
`setGpioAsOutput`: first `__WRITE_GPIO`, then `__GPIO_AS_OUTPUT`, on the
line selected by the designator. -/
def setGpioAsOutputSteps (gpio : GpioType) (state : Nat) : List Step :=
  if gpio = GpioType.GPIO_DTA then
    [Step.WRITE_GPIO_op Line.dta state, Step.GPIO_AS_OUTPUT Line.dta]
  else
    [Step.WRITE_GPIO_op Line.pwr state, Step.GPIO_AS_OUTPUT Line.pwr]

/-- Arduino megaAVR pin-resolution environment consumed by the
constructors: `digitalPinToBitMask`, `digitalPinToPortStruct` (`none`
models a NULL port), `digitalPinToBitPosition` and `getPINnCTRLregister`
(`none` models a NULL control register, `some c` the register's current
contents). -/
structure PinEnv where
  digitalPinToBitMask : Nat → Nat
  digitalPinToPortStruct : Nat → Option PORT_t
  digitalPinToBitPosition : Nat → Nat
  getPINnCTRLregister : Option PORT_t → Nat → Option Nat

/-- Modelled from the spec: `setupDtaGpio` (defined in the base header,
not among the sources) lets the base engine release the freshly
configured data line to its idle input (high-impedance) state; the
pull-up configuration is left untouched. -/
def State.setupDtaGpio (s : State) : State :=
  { s with dtaGpio := GPIO_AS_INPUT s.dtaGpio }

/-- Modelled from the spec: `setupPwrCtrlGpio(true)` (defined in the base
header, not among the sources) records that a dedicated power-control
line is configured and drives it as an output line. -/
def State.setupPwrCtrlGpio (s : State) (extPwrCtrl : Bool) : State :=
  if extPwrCtrl then
    { s with pwrCtrlConfigured := true,
             pwrCtrlGpio := GPIO_AS_OUTPUT s.pwrCtrlGpio }
  else s

/-- Method `initDtaGpio`: resolves the pin's bit mask, port and `PINnCTRL`
register, asserts the resolution succeeded (`assert(_dtaGpio.port != NULL
&& ctrlReg != NULL)`, modelled as `Except.error` with no register writes
performed), then configures the line: direction input (`DIRCLR`),
non-inverting mode, pull-up per the `pullUp` argument, finally
`setupDtaGpio()`. -/
def initDtaGpio (env : PinEnv) (s : State) (pin : Nat) (pullUp : Bool) :
    Except Unit State :=
  let bmsk := env.digitalPinToBitMask pin
  let port? := env.digitalPinToPortStruct pin
  let ctrlReg? := env.getPINnCTRLregister port? (env.digitalPinToBitPosition pin)
  match port?, ctrlReg? with
  | some port, some ctrlReg =>
    let s1 := { s with dtaGpio := { bmsk := bmsk, port := port } }
    let s2 := { s1 with dtaGpio := GPIO_AS_INPUT s1.dtaGpio }
    let c1 := bitClr ctrlReg PORT_INVEN_bm
    let c2 := if pullUp then c1 ||| PORT_PULLUPEN_bm
              else bitClr c1 PORT_PULLUPEN_bm
    let s3 := { s2 with dtaCtrl := c2 }
    Except.ok s3.setupDtaGpio
  | _, _ => Except.error ()

/-- Method `initPwrCtrlGpio`: resolves the power-control pin, asserts the
resolution succeeded, sets non-inverting mode and calls
`setupPwrCtrlGpio(true)`. -/
def initPwrCtrlGpio (env : PinEnv) (s : State) (pin : Nat) :
    Except Unit State :=
  let bmsk := env.digitalPinToBitMask pin
  let port? := env.digitalPinToPortStruct pin
  let ctrlReg? := env.getPINnCTRLregister port? (env.digitalPinToBitPosition pin)
  match port?, ctrlReg? with
  | some port, some ctrlReg =>
    let s1 := { s with pwrCtrlGpio := { bmsk := bmsk, port := port } }
    let c1 := bitClr ctrlReg PORT_INVEN_bm
    let s2 := { s1 with pwrCtrlCtrl := c1 }
    Except.ok (s2.setupPwrCtrlGpio true)
  | _, _ => Except.error ()

/-- Constructor `OneWireNg_ArduinoMegaAVR(pin, pullUp)`: passes `false` to
the `OneWireNg_BitBang` base (modelled as recording the flag with no
power-control line configured) and initializes the data line only; `s0`
stands for the indeterminate pre-construction object memory. -/
def ctor2 (env : PinEnv) (s0 : State) (pin : Nat) (pullUp : Bool) :
    Except Unit State :=
  let s := { s0 with extPwrCtrl := false, pwrCtrlConfigured := false }
  initDtaGpio env s pin pullUp

/-- Constructor `OneWireNg_ArduinoMegaAVR(pin, pwrCtrlPin, pullUp)`: passes
`true` to the base, initializes the data line, then the power-control
line. -/
def ctor3 (env : PinEnv) (s0 : State) (pin pwrCtrlPin : Nat) (pullUp : Bool) :
    Except Unit State :=
  let s := { s0 with extPwrCtrl := true, pwrCtrlConfigured := false }
  match initDtaGpio env s pin pullUp with
  | Except.ok s1 => initPwrCtrlGpio env s1 pwrCtrlPin
  | Except.error e => Except.error e

end MegaAVR

namespace ESP32

/-- Data-line descriptor of the ESP32 adapter: pin bit mask and the
contents of the pointed-to words — input register (`inReg`), output
register (written through `outSetReg`/`outClrReg`, i.e. the W1TS/W1TC
access addresses of one `out` word) and the output-enable (direction)
register (written through `modSetReg`/`modClrReg`). -/
structure DtaGpio where
  bmsk : Nat
  inReg : Nat
  outReg : Nat
  modReg : Nat
  deriving DecidableEq, Repr

/-- Power-control-line descriptor of the ESP32 adapter; the source struct
has no input register for this line. -/
structure PwrGpio where
  bmsk : Nat
  outReg : Nat
  modReg : Nat
  deriving DecidableEq, Repr

/-- Macro `__READ_GPIO(gs)`: `(*gs.inReg & gs.bmsk) != 0`. -/
def DtaGpio.READ_GPIO_op (gs : DtaGpio) : Bool := (gs.inReg &&& gs.bmsk) != 0

/-- Macro `__WRITE0_GPIO(gs)`: `*gs.outClrReg = gs.bmsk`. -/
def DtaGpio.WRITE0_GPIO_op (gs : DtaGpio) : DtaGpio :=
  { gs with outReg := bitClr gs.outReg gs.bmsk }

/-- Macro `__WRITE1_GPIO(gs)`: `*gs.outSetReg = gs.bmsk`. -/
def DtaGpio.WRITE1_GPIO_op (gs : DtaGpio) : DtaGpio :=
  { gs with outReg := gs.outReg ||| gs.bmsk }

/-- Macro `__WRITE_GPIO(gs, st)` on the data line. -/
def DtaGpio.WRITE_GPIO_op (gs : DtaGpio) (st : Nat) : DtaGpio :=
  if st != 0 then gs.WRITE1_GPIO_op else gs.WRITE0_GPIO_op

/-- Macro `__GPIO_AS_INPUT(gs)`: `*gs.modClrReg = gs.bmsk`. -/
def DtaGpio.GPIO_AS_INPUT (gs : DtaGpio) : DtaGpio :=
  { gs with modReg := bitClr gs.modReg gs.bmsk }

/-- Macro `__GPIO_AS_OUTPUT(gs)`: `*gs.modSetReg = gs.bmsk`. -/
def DtaGpio.GPIO_AS_OUTPUT (gs : DtaGpio) : DtaGpio :=
  { gs with modReg := gs.modReg ||| gs.bmsk }

/-- Macro `__WRITE_GPIO(gs, st)` on the power-control line. -/
def PwrGpio.WRITE_GPIO_op (gs : PwrGpio) (st : Nat) : PwrGpio :=
  if st != 0 then { gs with outReg := gs.outReg ||| gs.bmsk }
  else { gs with outReg := bitClr gs.outReg gs.bmsk }

/-- Macro `__GPIO_AS_INPUT(gs)` on the power-control line. -/
def PwrGpio.GPIO_AS_INPUT (gs : PwrGpio) : PwrGpio :=
  { gs with modReg := bitClr gs.modReg gs.bmsk }

/-- Macro `__GPIO_AS_OUTPUT(gs)` on the power-control line. -/
def PwrGpio.GPIO_AS_OUTPUT (gs : PwrGpio) : PwrGpio :=
  { gs with modReg := gs.modReg ||| gs.bmsk }

/-- Object state of `OneWireNg_ArduinoESP32`, together with the pull-up
enablement configured through the Arduino `pinMode` call. -/
structure State where
  extPwrCtrl : Bool
  pwrCtrlConfigured : Bool
  dtaGpio : DtaGpio
  dtaPull : Bool
  pwrCtrlGpio : PwrGpio
  deriving DecidableEq, Repr

/-- Method `readGpioIn`: ignores its designator (`UNUSED(gpio)`) and
returns `__READ_GPIO(_dtaGpio)` (C++ bool-to-int conversion: 0 or 1). -/
def State.readGpioIn (s : State) (gpio : GpioType) : Nat :=
  let _ := gpio
  if s.dtaGpio.READ_GPIO_op then 1 else 0

/-- Method `writeGpioOut`: writes the data line when the designator is
`GPIO_DTA`, the power-control line otherwise. -/
def State.writeGpioOut (s : State) (gpio : GpioType) (state : Nat) : State :=
  if gpio = GpioType.GPIO_DTA then
    { s with dtaGpio := s.dtaGpio.WRITE_GPIO_op state }
  else
    { s with pwrCtrlGpio := s.pwrCtrlGpio.WRITE_GPIO_op state }

/-- Method `setGpioAsInput`: ignores its designator (`UNUSED(gpio)`) and
reconfigures the data line as input. -/
def State.setGpioAsInput (s : State) (gpio : GpioType) : State :=
  let _ := gpio
  { s with dtaGpio := s.dtaGpio.GPIO_AS_INPUT }

/-- Method `setGpioAsOutput`: writes the requested level and then switches
the chosen line's direction to output. -/
def State.setGpioAsOutput (s : State) (gpio : GpioType) (state : Nat) : State :=
  if gpio = GpioType.GPIO_DTA then
    let s1 := { s with dtaGpio := s.dtaGpio.WRITE_GPIO_op state }
    { s1 with dtaGpio := s1.dtaGpio.GPIO_AS_OUTPUT }
  else
    let s1 := { s with pwrCtrlGpio := s.pwrCtrlGpio.WRITE_GPIO_op state }
    { s1 with pwrCtrlGpio := s1.pwrCtrlGpio.GPIO_AS_OUTPUT }

/-- Method `touch1Overdrive` (overdrive-mode 1-bit touch): drives the data
line low as output, delays, writes high to the output register to speed
up the low-to-high transition, releases the line to input, then samples
the input register once and returns the sampled level. -/
def State.touch1Overdrive (s : State) : Nat × State :=
  let s1 := { s with dtaGpio := s.dtaGpio.WRITE0_GPIO_op }
  let s2 := { s1 with dtaGpio := s1.dtaGpio.GPIO_AS_OUTPUT }
  /- delayMicroseconds(0): 0.5-1.5 usec at nominal freq. -/
  let s3 := { s2 with dtaGpio := s2.dtaGpio.WRITE1_GPIO_op }
  let s4 := { s3 with dtaGpio := s3.dtaGpio.GPIO_AS_INPUT }
  /- start sampling at ~2 usec at nominal freq. -/
  (if s4.dtaGpio.READ_GPIO_op then 1 else 0, s4)

/-- Identifies which of the adapter's two lines a primitive step acts on. -/
inductive Line where
  | dta
  | pwr
  deriving DecidableEq, Repr

/-- Primitive operation of the ESP32 adapter, used to expose the order in
which a method performs its register accesses, delays and samples. -/
inductive Step where
  | WRITE0_GPIO_op (line : Line)
  | WRITE1_GPIO_op (line : Line)
  | WRITE_GPIO_op (line : Line) (st : Nat)
  | GPIO_AS_INPUT (line : Line)
  | GPIO_AS_OUTPUT (line : Line)
  | delayMicroseconds (us : Nat)
  | READ_GPIO_op (line : Line)
  deriving DecidableEq, Repr

/-- Effect of one primitive step on the adapter state; a delay or an input
sample leaves every register untouched. -/
def Step.apply (s : State) : Step → State
  | .WRITE0_GPIO_op .dta => { s with dtaGpio := s.dtaGpio.WRITE0_GPIO_op }
  | .WRITE0_GPIO_op .pwr =>
      { s with pwrCtrlGpio := s.pwrCtrlGpio.WRITE_GPIO_op 0 }
  | .WRITE1_GPIO_op .dta => { s with dtaGpio := s.dtaGpio.WRITE1_GPIO_op }
  | .WRITE1_GPIO_op .pwr =>
      { s with pwrCtrlGpio := s.pwrCtrlGpio.WRITE_GPIO_op 1 }
  | .WRITE_GPIO_op .dta st => { s with dtaGpio := s.dtaGpio.WRITE_GPIO_op st }
  | .WRITE_GPIO_op .pwr st =>
      { s with pwrCtrlGpio := s.pwrCtrlGpio.WRITE_GPIO_op st }
  | .GPIO_AS_INPUT .dta => { s with dtaGpio := s.dtaGpio.GPIO_AS_INPUT }
  | .GPIO_AS_INPUT .pwr =>
      { s with pwrCtrlGpio := s.pwrCtrlGpio.GPIO_AS_INPUT }
  | .GPIO_AS_OUTPUT .dta => { s with dtaGpio := s.dtaGpio.GPIO_AS_OUTPUT }
  | .GPIO_AS_OUTPUT .pwr =>
      { s with pwrCtrlGpio := s.pwrCtrlGpio.GPIO_AS_OUTPUT }
  | .delayMicroseconds _ => s
  | .READ_GPIO_op _ => s

/-- Source-ordered sequence of primitive steps performed by
`setGpioAsOutput`. -/
def setGpioAsOutputSteps (gpio : GpioType) (state : Nat) : List Step :=
  if gpio = GpioType.GPIO_DTA then
    [Step.WRITE_GPIO_op Line.dta state, Step.GPIO_AS_OUTPUT Line.dta]
  else
    [Step.WRITE_GPIO_op Line.pwr state, Step.GPIO_AS_OUTPUT Line.pwr]

/-- Source-ordered sequence of primitive steps performed by
`touch1Overdrive`. -/
def touch1OverdriveSteps : List Step :=
  [Step.WRITE0_GPIO_op Line.dta, Step.GPIO_AS_OUTPUT Line.dta,
   Step.delayMicroseconds 0, Step.WRITE1_GPIO_op Line.dta,
   Step.GPIO_AS_INPUT Line.dta, Step.READ_GPIO_op Line.dta]

/-- Contents of one of the two ESP32 GPIO register banks (`GPIO.in`,
`GPIO.out`, `GPIO.enable` and the bank-1 `in1`/`out1`/`enable1`
counterparts for pins 32 and 33). -/
structure GPIOBank where
  inVal : Nat
  outVal : Nat
  enable : Nat
  deriving DecidableEq, Repr

/-- ESP32 GPIO environment consumed by the constructors: the current
contents of both register banks. -/
structure PinEnv where
  bank0 : GPIOBank
  bank1 : GPIOBank
  deriving DecidableEq, Repr

/-- Modelled from the spec: Arduino `pinMode(pin, INPUT | (pullUp ?
PULLUP : 0))` configures the pin as a high-impedance input with the
internal pull-up resistor enabled exactly when requested. -/
def pinModeInput (gs : DtaGpio) (pullUp : Bool) : DtaGpio × Bool :=
  (gs.GPIO_AS_INPUT, pullUp)

/-- Modelled from the spec: `setupDtaGpio` (defined in the base header,
not among the sources) lets the base engine release the freshly
configured data line to its idle input (high-impedance) state; the
pull-up configuration is left untouched. -/
def State.setupDtaGpio (s : State) : State :=
  { s with dtaGpio := s.dtaGpio.GPIO_AS_INPUT }

/-- Modelled from the spec: `setupPwrCtrlGpio(true)` (defined in the base
header, not among the sources) records that a dedicated power-control
line is configured and drives it as an output line. -/
def State.setupPwrCtrlGpio (s : State) (extPwrCtrl : Bool) : State :=
  if extPwrCtrl then
    { s with pwrCtrlConfigured := true,
             pwrCtrlGpio := s.pwrCtrlGpio.GPIO_AS_OUTPUT }
  else s

/-- Method `initDtaGpio` (general ESP32 variant): asserts `pin < 34`
(pins above 33 can only be inputs; modelled as `Except.error` with no
register writes performed), binds the descriptor to bank 0 with mask
`1 << pin` for pins below 32 and to bank 1 with mask `1 << (pin-32)`
otherwise, then `pinMode(pin, INPUT | (pullUp ? PULLUP : 0))` and
`setupDtaGpio()`. -/
def initDtaGpio (env : PinEnv) (s : State) (pin : Nat) (pullUp : Bool) :
    Except Unit State :=
  if pin < 34 then
    let gs : DtaGpio :=
      if pin < 32 then
        { bmsk := 1 <<< pin, inReg := env.bank0.inVal,
          outReg := env.bank0.outVal, modReg := env.bank0.enable }
      else
        { bmsk := 1 <<< (pin - 32), inReg := env.bank1.inVal,
          outReg := env.bank1.outVal, modReg := env.bank1.enable }
    let (gs1, pull) := pinModeInput gs pullUp
    let s1 := { s with dtaGpio := gs1, dtaPull := pull }
    Except.ok s1.setupDtaGpio
  else Except.error ()

/-- Method `initPwrCtrlGpio` (general ESP32 variant): asserts `pin < 34`,
binds the power-control descriptor to the proper bank, then
`pinMode(pin, OUTPUT)` (modelled from the spec as driving the line as an
output) and `setupPwrCtrlGpio(true)`. -/
def initPwrCtrlGpio (env : PinEnv) (s : State) (pin : Nat) :
    Except Unit State :=
  if pin < 34 then
    let gs : PwrGpio :=
      if pin < 32 then
        { bmsk := 1 <<< pin, outReg := env.bank0.outVal,
          modReg := env.bank0.enable }
      else
        { bmsk := 1 <<< (pin - 32), outReg := env.bank1.outVal,
          modReg := env.bank1.enable }
    let s1 := { s with pwrCtrlGpio := gs.GPIO_AS_OUTPUT }
    Except.ok (s1.setupPwrCtrlGpio true)
  else Except.error ()

/-- Constructor `OneWireNg_ArduinoESP32(pin, pullUp)`: passes `false` to
the `OneWireNg_BitBang` base and initializes the data line only. -/
def ctor2 (env : PinEnv) (s0 : State) (pin : Nat) (pullUp : Bool) :
    Except Unit State :=
  let s := { s0 with extPwrCtrl := false, pwrCtrlConfigured := false }
  initDtaGpio env s pin pullUp

/-- Constructor `OneWireNg_ArduinoESP32(pin, pwrCtrlPin, pullUp)`: passes
`true` to the base, initializes the data line, then the power-control
line. -/
def ctor3 (env : PinEnv) (s0 : State) (pin pwrCtrlPin : Nat) (pullUp : Bool) :
    Except Unit State :=
  let s := { s0 with extPwrCtrl := true, pwrCtrlConfigured := false }
  match initDtaGpio env s pin pullUp with
  | Except.ok s1 => initPwrCtrlGpio env s1 pwrCtrlPin
  | Except.error e => Except.error e

end ESP32

namespace STM32

/-- Pin mode as set through `LL_GPIO_SetPinMode`. -/
inductive PinMode where
  | LL_GPIO_MODE_INPUT
  | LL_GPIO_MODE_OUTPUT
  deriving DecidableEq, Repr

/-- Observable state of one STM32 GPIO line as the adapter manipulates it
through `digitalWriteFast`, `digitalReadFast`, `LL_GPIO_SetPinMode` and
`pinMode`: the resolved pin name, the driven output-data level, the
sampled input-data level, the pin mode and the pull-up enablement. -/
structure LineState where
  pinName : Nat
  odr : Bool
  idr : Bool
  mode : PinMode
  pull : Bool
  deriving DecidableEq, Repr

/-- Arduino `digitalWriteFast(pinName, state)`: drives the line's output
data level (high exactly when `state` is non-zero). -/
def digitalWriteFast (l : LineState) (state : Nat) : LineState :=
  { l with odr := state != 0 }

/-- Arduino `digitalReadFast(pinName)`: samples the line's input data
level; `true` stands for `HIGH`, `false` for `LOW`. -/
def digitalReadFast (l : LineState) : Bool := l.idr

/-- Low-layer `LL_GPIO_SetPinMode(gpio, ll_pin, mode)`: switches the
line's mode. -/
def LL_GPIO_SetPinMode (l : LineState) (mode : PinMode) : LineState :=
  { l with mode := mode }

/-- Object state of `OneWireNg_ArduinoSTM32`. -/
structure State where
  extPwrCtrl : Bool
  pwrCtrlConfigured : Bool
  dtaGpio : LineState
  pwrCtrlGpio : LineState
  deriving DecidableEq, Repr

/-- Method `readGpioIn`: ignores its designator (`UNUSED(gpio)`) and
returns `digitalReadFast(_dtaGpio.pinName) == LOW ? 0 : 1`. -/
def State.readGpioIn (s : State) (gpio : GpioType) : Nat :=
  let _ := gpio
  if digitalReadFast s.dtaGpio = false then 0 else 1

/-- Method `writeGpioOut`: writes the data line when the designator is
`GPIO_DTA`, the power-control line otherwise. -/
def State.writeGpioOut (s : State) (gpio : GpioType) (state : Nat) : State :=
  if gpio = GpioType.GPIO_DTA then
    { s with dtaGpio := digitalWriteFast s.dtaGpio state }
  else
    { s with pwrCtrlGpio := digitalWriteFast s.pwrCtrlGpio state }

/-- Method `setGpioAsInput`: ignores its designator (`UNUSED(gpio)`) and
sets the data line's mode to `LL_GPIO_MODE_INPUT`. -/
def State.setGpioAsInput (s : State) (gpio : GpioType) : State :=
  let _ := gpio
  { s with dtaGpio := LL_GPIO_SetPinMode s.dtaGpio PinMode.LL_GPIO_MODE_INPUT }

/-- Method `setGpioAsOutput`: writes the requested level through
`digitalWriteFast` and then switches the chosen line's mode to
`LL_GPIO_MODE_OUTPUT`. -/
def State.setGpioAsOutput (s : State) (gpio : GpioType) (state : Nat) : State :=
  if gpio = GpioType.GPIO_DTA then
    let s1 := { s with dtaGpio := digitalWriteFast s.dtaGpio state }
    { s1 with dtaGpio :=
        LL_GPIO_SetPinMode s1.dtaGpio PinMode.LL_GPIO_MODE_OUTPUT }
  else
    let s1 := { s with pwrCtrlGpio := digitalWriteFast s.pwrCtrlGpio state }
    { s1 with pwrCtrlGpio :=
        LL_GPIO_SetPinMode s1.pwrCtrlGpio PinMode.LL_GPIO_MODE_OUTPUT }

/-- Identifies which of the adapter's two lines a primitive step acts on. -/
inductive Line where
  | dta
  | pwr
  deriving DecidableEq, Repr

/-- Primitive operation of the STM32 adapter, used to expose the order in
which a method performs its line accesses. -/
inductive Step where
  | digitalWriteFast (line : Line) (st : Nat)
  | setPinMode (line : Line) (mode : PinMode)
  deriving DecidableEq, Repr

/-- Effect of one primitive step on the adapter state. -/
def Step.apply (s : State) : Step → State
  | .digitalWriteFast .dta st =>
      { s with dtaGpio := OneWireNg.STM32.digitalWriteFast s.dtaGpio st }
  | .digitalWriteFast .pwr st =>
      { s with pwrCtrlGpio := OneWireNg.STM32.digitalWriteFast s.pwrCtrlGpio st }
  | .setPinMode .dta mode =>
      { s with dtaGpio := LL_GPIO_SetPinMode s.dtaGpio mode }
  | .setPinMode .pwr mode =>
      { s with pwrCtrlGpio := LL_GPIO_SetPinMode s.pwrCtrlGpio mode }

/-- Source-ordered sequence of primitive steps performed by
`setGpioAsOutput`. -/
def setGpioAsOutputSteps (gpio : GpioType) (state : Nat) : List Step :=
  if gpio = GpioType.GPIO_DTA then
    [Step.digitalWriteFast Line.dta state,
     Step.setPinMode Line.dta PinMode.LL_GPIO_MODE_OUTPUT]
  else
    [Step.digitalWriteFast Line.pwr state,
     Step.setPinMode Line.pwr PinMode.LL_GPIO_MODE_OUTPUT]

/-- STM32 pin-resolution environment: `digitalPinToPinName` (`none`
models the not-connected marker `NC`) together with the resolved line's
current electrical state. -/
structure PinEnv where
  digitalPinToPinName : Nat → Option Nat
  lineOf : Nat → LineState

/-- Modelled from the spec: Arduino `pinMode(pin, pullUp ? INPUT_PULLUP :
INPUT)` configures the pin as a high-impedance input with the internal
pull-up resistor enabled exactly when requested. -/
def pinModeInput (l : LineState) (pullUp : Bool) : LineState :=
  { l with mode := PinMode.LL_GPIO_MODE_INPUT, pull := pullUp }

/-- Modelled from the spec: Arduino `pinMode(pin, OUTPUT)` configures the
pin as an output. -/
def pinModeOutput (l : LineState) : LineState :=
  { l with mode := PinMode.LL_GPIO_MODE_OUTPUT }

/-- Modelled from the spec: `setupDtaGpio` (defined in the base header,
not among the sources) lets the base engine release the freshly
configured data line to its idle input (high-impedance) state; the
pull-up configuration is left untouched. -/
def State.setupDtaGpio (s : State) : State :=
  { s with dtaGpio :=
      LL_GPIO_SetPinMode s.dtaGpio PinMode.LL_GPIO_MODE_INPUT }

/-- Modelled from the spec: `setupPwrCtrlGpio(true)` (defined in the base
header, not among the sources) records that a dedicated power-control
line is configured and drives it as an output line. -/
def State.setupPwrCtrlGpio (s : State) (extPwrCtrl : Bool) : State :=
  if extPwrCtrl then
    { s with pwrCtrlConfigured := true,
             pwrCtrlGpio :=
               LL_GPIO_SetPinMode s.pwrCtrlGpio PinMode.LL_GPIO_MODE_OUTPUT }
  else s

/-- Method `initDtaGpio`: resolves the pin name and asserts it is not
`NC` (`assert(_dtaGpio.pinName != NC)`, modelled as `Except.error` with
no line accesses performed), then `pinMode(pin, pullUp ? INPUT_PULLUP :
INPUT)` and `setupDtaGpio()`. -/
def initDtaGpio (env : PinEnv) (s : State) (pin : Nat) (pullUp : Bool) :
    Except Unit State :=
  match env.digitalPinToPinName pin with
  | some pinName =>
    let l := { env.lineOf pinName with pinName := pinName }
    let s1 := { s with dtaGpio := pinModeInput l pullUp }
    Except.ok s1.setupDtaGpio
  | none => Except.error ()

/-- Method `initPwrCtrlGpio`: resolves the pin name and asserts it is not
`NC`, then `pinMode(pin, OUTPUT)` and `setupPwrCtrlGpio(true)`. -/
def initPwrCtrlGpio (env : PinEnv) (s : State) (pin : Nat) :
    Except Unit State :=
  match env.digitalPinToPinName pin with
  | some pinName =>
    let l := { env.lineOf pinName with pinName := pinName }
    let s1 := { s with pwrCtrlGpio := pinModeOutput l }
    Except.ok (s1.setupPwrCtrlGpio true)
  | none => Except.error ()

/-- Constructor `OneWireNg_ArduinoSTM32(pin, pullUp)`: passes `false` to
the `OneWireNg_BitBang` base and initializes the data line only. -/
def ctor2 (env : PinEnv) (s0 : State) (pin : Nat) (pullUp : Bool) :
    Except Unit State :=
  let s := { s0 with extPwrCtrl := false, pwrCtrlConfigured := false }
  initDtaGpio env s pin pullUp

/-- Constructor `OneWireNg_ArduinoSTM32(pin, pwrCtrlPin, pullUp)`: passes
`true` to the base, initializes the data line, then the power-control
line. -/
def ctor3 (env : PinEnv) (s0 : State) (pin pwrCtrlPin : Nat) (pullUp : Bool) :
    Except Unit State :=
  let s := { s0 with extPwrCtrl := true, pwrCtrlConfigured := false }
  match initDtaGpio env s pin pullUp with
  | Except.ok s1 => initPwrCtrlGpio env s1 pwrCtrlPin
  | Except.error e => Except.error e

end STM32

namespace SAM

/-- Data-line descriptor of the SAM adapter: pin bit mask (`ulPin`) and
the contents of the pointed-to PIO words — pin data status (`PIO_PDSR`,
read), output data (written through the set/clear access registers
`PIO_SODR`/`PIO_CODR`) and output enable (written through
`PIO_OER`/`PIO_ODR`). -/
structure DtaGpio where
  bmsk : Nat
  inReg : Nat
  outReg : Nat
  modReg : Nat
  deriving DecidableEq, Repr

/-- Power-control-line descriptor of the SAM adapter; the source struct
has no input register for this line. -/
structure PwrGpio where
  bmsk : Nat
  outReg : Nat
  modReg : Nat
  deriving DecidableEq, Repr

/-- Macro `__READ_GPIO(gs)`: `(*gs.inReg & gs.bmsk) != 0`. -/
def DtaGpio.READ_GPIO_op (gs : DtaGpio) : Bool := (gs.inReg &&& gs.bmsk) != 0

/-- Macro `__WRITE_GPIO(gs, st)`: `*gs.outSetReg = gs.bmsk` when `st` is
non-zero, else `*gs.outClrReg = gs.bmsk`. -/
def DtaGpio.WRITE_GPIO_op (gs : DtaGpio) (st : Nat) : DtaGpio :=
  if st != 0 then { gs with outReg := gs.outReg ||| gs.bmsk }
  else { gs with outReg := bitClr gs.outReg gs.bmsk }

/-- Macro `__GPIO_AS_INPUT(gs)`: `*gs.modClrReg = gs.bmsk`. -/
def DtaGpio.GPIO_AS_INPUT (gs : DtaGpio) : DtaGpio :=
  { gs with modReg := bitClr gs.modReg gs.bmsk }

/-- Macro `__GPIO_AS_OUTPUT(gs)`: `*gs.modSetReg = gs.bmsk`. -/
def DtaGpio.GPIO_AS_OUTPUT (gs : DtaGpio) : DtaGpio :=
  { gs with modReg := gs.modReg ||| gs.bmsk }

/-- Macro `__WRITE_GPIO(gs, st)` on the power-control line. -/
def PwrGpio.WRITE_GPIO_op (gs : PwrGpio) (st : Nat) : PwrGpio :=
  if st != 0 then { gs with outReg := gs.outReg ||| gs.bmsk }
  else { gs with outReg := bitClr gs.outReg gs.bmsk }

/-- Macro `__GPIO_AS_OUTPUT(gs)` on the power-control line. -/
def PwrGpio.GPIO_AS_OUTPUT (gs : PwrGpio) : PwrGpio :=
  { gs with modReg := gs.modReg ||| gs.bmsk }

/-- Object state of `OneWireNg_ArduinoSAM`, together with the pull-up
enablement configured through the Arduino `pinMode` call. -/
structure State where
  extPwrCtrl : Bool
  pwrCtrlConfigured : Bool
  dtaGpio : DtaGpio
  dtaPull : Bool
  pwrCtrlGpio : PwrGpio
  deriving DecidableEq, Repr

/-- Method `readGpioIn`: ignores its designator (`UNUSED(gpio)`) and
returns `__READ_GPIO(_dtaGpio)` (C++ bool-to-int conversion: 0 or 1). -/
def State.readGpioIn (s : State) (gpio : GpioType) : Nat :=
  let _ := gpio
  if s.dtaGpio.READ_GPIO_op then 1 else 0

/-- Method `writeGpioOut`: writes the data line when the designator is
`GPIO_DTA`, the power-control line otherwise (the `PIN_STATUS_UPDATE`
compile switch is off in the source). -/
def State.writeGpioOut (s : State) (gpio : GpioType) (state : Nat) : State :=
  if gpio = GpioType.GPIO_DTA then
    { s with dtaGpio := s.dtaGpio.WRITE_GPIO_op state }
  else
    { s with pwrCtrlGpio := s.pwrCtrlGpio.WRITE_GPIO_op state }

/-- Method `setGpioAsInput`: ignores its designator (`UNUSED(gpio)`) and
reconfigures the data line as input. -/
def State.setGpioAsInput (s : State) (gpio : GpioType) : State :=
  let _ := gpio
  { s with dtaGpio := s.dtaGpio.GPIO_AS_INPUT }

/-- Method `setGpioAsOutput`: writes the requested level and then switches
the chosen line's direction to output. -/
def State.setGpioAsOutput (s : State) (gpio : GpioType) (state : Nat) : State :=
  if gpio = GpioType.GPIO_DTA then
    let s1 := { s with dtaGpio := s.dtaGpio.WRITE_GPIO_op state }
    { s1 with dtaGpio := s1.dtaGpio.GPIO_AS_OUTPUT }
  else
    let s1 := { s with pwrCtrlGpio := s.pwrCtrlGpio.WRITE_GPIO_op state }
    { s1 with pwrCtrlGpio := s1.pwrCtrlGpio.GPIO_AS_OUTPUT }

/-- Identifies which of the adapter's two lines a primitive step acts on. -/
inductive Line where
  | dta
  | pwr
  deriving DecidableEq, Repr

/-- Primitive register operation of the SAM adapter, used to expose the
order in which a method performs its register accesses. -/
inductive Step where
  | WRITE_GPIO_op (line : Line) (st : Nat)
  | GPIO_AS_INPUT (line : Line)
  | GPIO_AS_OUTPUT (line : Line)
  deriving DecidableEq, Repr

/-- Effect of one primitive step on the adapter state; an input-direction
switch of the power-control line does not occur in the source and is
modelled as the identity. -/
def Step.apply (s : State) : Step → State
  | .WRITE_GPIO_op .dta st => { s with dtaGpio := s.dtaGpio.WRITE_GPIO_op st }
  | .WRITE_GPIO_op .pwr st =>
      { s with pwrCtrlGpio := s.pwrCtrlGpio.WRITE_GPIO_op st }
  | .GPIO_AS_INPUT .dta => { s with dtaGpio := s.dtaGpio.GPIO_AS_INPUT }
  | .GPIO_AS_INPUT .pwr => s
  | .GPIO_AS_OUTPUT .dta => { s with dtaGpio := s.dtaGpio.GPIO_AS_OUTPUT }
  | .GPIO_AS_OUTPUT .pwr =>
      { s with pwrCtrlGpio := s.pwrCtrlGpio.GPIO_AS_OUTPUT }

/-- Source-ordered sequence of primitive steps performed by
`setGpioAsOutput`. -/
def setGpioAsOutputSteps (gpio : GpioType) (state : Nat) : List Step :=
  if gpio = GpioType.GPIO_DTA then
    [Step.WRITE_GPIO_op Line.dta state, Step.GPIO_AS_OUTPUT Line.dta]
  else
    [Step.WRITE_GPIO_op Line.pwr state, Step.GPIO_AS_OUTPUT Line.pwr]

/-- Pin type tag of a SAM pin descriptor; only the `PIO_NOT_A_PIN`
distinction matters to the adapter. -/
inductive PioType where
  | PIO_NOT_A_PIN
  | PIO_DIGITAL
  deriving DecidableEq, Repr

/-- One entry of `g_APinDescription`: the pin type tag, the pin bit mask
(`ulPin`) and the contents of the pointed-to PIO controller words. -/
structure PinDescription where
  ulPinType : PioType
  ulPin : Nat
  PIO_PDSR : Nat
  PIO_ODSR : Nat
  PIO_OSR : Nat
  deriving DecidableEq, Repr

/-- SAM pin-resolution environment: the `g_APinDescription` table. -/
structure PinEnv where
  g_APinDescription : Nat → PinDescription

/-- Modelled from the spec: Arduino `pinMode(pin, pullUp ? INPUT_PULLUP :
INPUT)` configures the pin as a high-impedance input with the internal
pull-up resistor enabled exactly when requested. -/
def pinModeInput (gs : DtaGpio) (pullUp : Bool) : DtaGpio × Bool :=
  (gs.GPIO_AS_INPUT, pullUp)

/-- Modelled from the spec: `setupDtaGpio` (defined in the base header,
not among the sources) lets the base engine release the freshly
configured data line to its idle input (high-impedance) state; the
pull-up configuration is left untouched. -/
def State.setupDtaGpio (s : State) : State :=
  { s with dtaGpio := s.dtaGpio.GPIO_AS_INPUT }

/-- Modelled from the spec: `setupPwrCtrlGpio(true)` (defined in the base
header, not among the sources) records that a dedicated power-control
line is configured and drives it as an output line. -/
def State.setupPwrCtrlGpio (s : State) (extPwrCtrl : Bool) : State :=
  if extPwrCtrl then
    { s with pwrCtrlConfigured := true,
             pwrCtrlGpio := s.pwrCtrlGpio.GPIO_AS_OUTPUT }
  else s

/-- Method `initDtaGpio`: asserts the pin descriptor is a real pin
(`assert(g_APinDescription[pin].ulPinType != PIO_NOT_A_PIN)`, modelled
as `Except.error` with no register writes performed), binds the
descriptor registers, then `pinMode(pin, pullUp ? INPUT_PULLUP : INPUT)`
and `setupDtaGpio()`. -/
def initDtaGpio (env : PinEnv) (s : State) (pin : Nat) (pullUp : Bool) :
    Except Unit State :=
  let desc := env.g_APinDescription pin
  if desc.ulPinType = PioType.PIO_NOT_A_PIN then Except.error ()
  else
    let gs : DtaGpio :=
      { bmsk := desc.ulPin, inReg := desc.PIO_PDSR,
        outReg := desc.PIO_ODSR, modReg := desc.PIO_OSR }
    let (gs1, pull) := pinModeInput gs pullUp
    let s1 := { s with dtaGpio := gs1, dtaPull := pull }
    Except.ok s1.setupDtaGpio

/-- Method `initPwrCtrlGpio`: asserts the pin descriptor is a real pin,
binds the power-control descriptor registers, then `pinMode(pin,
OUTPUT)` (modelled from the spec as driving the line as an output) and
`setupPwrCtrlGpio(true)`. -/
def initPwrCtrlGpio (env : PinEnv) (s : State) (pin : Nat) :
    Except Unit State :=
  let desc := env.g_APinDescription pin
  if desc.ulPinType = PioType.PIO_NOT_A_PIN then Except.error ()
  else
    let gs : PwrGpio :=
      { bmsk := desc.ulPin, outReg := desc.PIO_ODSR, modReg := desc.PIO_OSR }
    let s1 := { s with pwrCtrlGpio := gs.GPIO_AS_OUTPUT }
    Except.ok (s1.setupPwrCtrlGpio true)

/-- Constructor `OneWireNg_ArduinoSAM(pin, pullUp)`: passes `false` to the
`OneWireNg_BitBang` base and initializes the data line only. -/
def ctor2 (env : PinEnv) (s0 : State) (pin : Nat) (pullUp : Bool) :
    Except Unit State :=
  let s := { s0 with extPwrCtrl := false, pwrCtrlConfigured := false }
  initDtaGpio env s pin pullUp

/-- Constructor `OneWireNg_ArduinoSAM(pin, pwrCtrlPin, pullUp)`: passes
`true` to the base, initializes the data line, then the power-control
line. -/
def ctor3 (env : PinEnv) (s0 : State) (pin pwrCtrlPin : Nat) (pullUp : Bool) :
    Except Unit State :=
  let s := { s0 with extPwrCtrl := true, pwrCtrlConfigured := false }
  match initDtaGpio env s pin pullUp with
  | Except.ok s1 => initPwrCtrlGpio env s1 pwrCtrlPin
  | Except.error e => Except.error e

end SAM

/-- Modelled from the spec: one shift-and-XOR round of the Dallas/Maxim
CRC-8 engine (the CRC code is not among the sources at hand) — polynomial
x^8 + x^5 + x^4 + 1 in its reflected form 0x8C, applied to the pair of
the running checksum and the remaining input-byte bits. -/
def crc8_round (p : Nat × Nat) : Nat × Nat :=
  if (p.1 ^^^ p.2) % 2 = 1 then ((p.1 / 2) ^^^ 0x8C, p.2 / 2)
  else (p.1 / 2, p.2 / 2)

/-- Modelled from the spec: update the running CRC-8 checksum with one
input byte, through eight shift-and-XOR rounds. -/
def crc8_update (crc b : Nat) : Nat := (crc8_round^[8] (crc, b)).1

/-- Modelled from the spec: `crc8(buffer)` resets the checksum to the
initial value 0 and updates it over every byte of the buffer. -/
def crc8 (data : List Nat) : Nat := data.foldl crc8_update 0

/- ------------------------------------------------------------------ -/
/- Concrete sample inputs, used to witness the theorems below.        -/
/- ------------------------------------------------------------------ -/

/-- Sample megaAVR port-bank contents. -/
def MegaAVR.portW : MegaAVR.PORT_t := { IN := 0xAA, OUT := 0x55, DIR := 0xF0 }

/-- Sample megaAVR environment in which every pin resolves. -/
def MegaAVR.envOk : MegaAVR.PinEnv where
  digitalPinToBitMask := fun pin => 1 <<< (pin % 8)
  digitalPinToPortStruct := fun _ => some MegaAVR.portW
  digitalPinToBitPosition := fun pin => pin % 8
  getPINnCTRLregister := fun port? _ =>
    match port? with
    | some _ => some 0xFF
    | none => none

/-- Sample megaAVR environment in which no pin resolves (NULL port and
control register). -/
def MegaAVR.envBad : MegaAVR.PinEnv where
  digitalPinToBitMask := fun pin => 1 <<< (pin % 8)
  digitalPinToPortStruct := fun _ => none
  digitalPinToBitPosition := fun pin => pin % 8
  getPINnCTRLregister := fun port? _ =>
    match port? with
    | some _ => some 0xFF
    | none => none

/-- Sample indeterminate pre-construction megaAVR object memory. -/
def MegaAVR.sInit : MegaAVR.State where
  extPwrCtrl := true
  pwrCtrlConfigured := true
  dtaGpio := { bmsk := 0x40, port := MegaAVR.portW }
  dtaCtrl := 0x33
  pwrCtrlGpio := { bmsk := 0x20, port := MegaAVR.portW }
  pwrCtrlCtrl := 0x44

/-- Sample megaAVR state produced by the two-argument constructor. -/
def MegaAVR.sCtor2 : MegaAVR.State :=
  match MegaAVR.ctor2 MegaAVR.envOk MegaAVR.sInit 3 true with
  | Except.ok s => s
  | Except.error _ => MegaAVR.sInit

/-- Sample megaAVR state produced by the three-argument constructor. -/
def MegaAVR.sCtor3 : MegaAVR.State :=
  match MegaAVR.ctor3 MegaAVR.envOk MegaAVR.sInit 3 5 false with
  | Except.ok s => s
  | Except.error _ => MegaAVR.sInit

/-- Sample megaAVR state whose lines are both in the input direction. -/
def MegaAVR.sIdle : MegaAVR.State where
  extPwrCtrl := false
  pwrCtrlConfigured := false
  dtaGpio := { bmsk := 0x04, port := { IN := 0x04, OUT := 0x00, DIR := 0x00 } }
  dtaCtrl := 0x08
  pwrCtrlGpio := { bmsk := 0x08, port := { IN := 0x00, OUT := 0x00, DIR := 0x00 } }
  pwrCtrlCtrl := 0x00

/-- Sample ESP32 environment: contents of the two GPIO register banks. -/
def ESP32.envOk : ESP32.PinEnv where
  bank0 := { inVal := 0x25, outVal := 0x13, enable := 0xFF }
  bank1 := { inVal := 0x01, outVal := 0x02, enable := 0x03 }

/-- Sample indeterminate pre-construction ESP32 object memory. -/
def ESP32.sInit : ESP32.State where
  extPwrCtrl := true
  pwrCtrlConfigured := true
  dtaGpio := { bmsk := 0x01, inReg := 0x07, outReg := 0x07, modReg := 0x07 }
  dtaPull := false
  pwrCtrlGpio := { bmsk := 0x02, outReg := 0x07, modReg := 0x07 }

/-- Sample ESP32 state produced by the two-argument constructor. -/
def ESP32.sCtor2 : ESP32.State :=
  match ESP32.ctor2 ESP32.envOk ESP32.sInit 5 true with
  | Except.ok s => s
  | Except.error _ => ESP32.sInit

/-- Sample ESP32 state produced by the three-argument constructor. -/
def ESP32.sCtor3 : ESP32.State :=
  match ESP32.ctor3 ESP32.envOk ESP32.sInit 33 25 false with
  | Except.ok s => s
  | Except.error _ => ESP32.sInit

/-- Sample ESP32 state whose lines are both in the input direction. -/
def ESP32.sIdle : ESP32.State where
  extPwrCtrl := false
  pwrCtrlConfigured := false
  dtaGpio := { bmsk := 0x04, inReg := 0x04, outReg := 0x00, modReg := 0x00 }
  dtaPull := true
  pwrCtrlGpio := { bmsk := 0x08, outReg := 0x00, modReg := 0x00 }

/-- Sample STM32 line state. -/
def STM32.lineW : STM32.LineState where
  pinName := 7
  odr := false
  idr := true
  mode := STM32.PinMode.LL_GPIO_MODE_OUTPUT
  pull := false

/-- Sample STM32 environment in which every pin resolves. -/
def STM32.envOk : STM32.PinEnv where
  digitalPinToPinName := fun pin => some (pin + 16)
  lineOf := fun _ => STM32.lineW

/-- Sample STM32 environment in which no pin resolves (`NC`). -/
def STM32.envBad : STM32.PinEnv where
  digitalPinToPinName := fun _ => none
  lineOf := fun _ => STM32.lineW

/-- Sample indeterminate pre-construction STM32 object memory. -/
def STM32.sInit : STM32.State where
  extPwrCtrl := true
  pwrCtrlConfigured := true
  dtaGpio := STM32.lineW
  pwrCtrlGpio := STM32.lineW

/-- Sample STM32 state produced by the two-argument constructor. -/
def STM32.sCtor2 : STM32.State :=
  match STM32.ctor2 STM32.envOk STM32.sInit 3 true with
  | Except.ok s => s
  | Except.error _ => STM32.sInit

/-- Sample STM32 state produced by the three-argument constructor. -/
def STM32.sCtor3 : STM32.State :=
  match STM32.ctor3 STM32.envOk STM32.sInit 3 5 false with
  | Except.ok s => s
  | Except.error _ => STM32.sInit

/-- Sample STM32 state whose lines are both in the input mode. -/
def STM32.sIdle : STM32.State where
  extPwrCtrl := false
  pwrCtrlConfigured := false
  dtaGpio := { pinName := 7, odr := false, idr := false,
               mode := STM32.PinMode.LL_GPIO_MODE_INPUT, pull := true }
  pwrCtrlGpio := { pinName := 9, odr := false, idr := false,
                   mode := STM32.PinMode.LL_GPIO_MODE_INPUT, pull := false }

/-- Sample valid SAM pin descriptor. -/
def SAM.descOk : SAM.PinDescription where
  ulPinType := SAM.PioType.PIO_DIGITAL
  ulPin := 0x10
  PIO_PDSR := 0xFF
  PIO_ODSR := 0x0F
  PIO_OSR := 0xF0

/-- Sample SAM environment in which every pin resolves. -/
def SAM.envOk : SAM.PinEnv where
  g_APinDescription := fun _ => SAM.descOk

/-- Sample SAM environment in which no descriptor is a real pin. -/
def SAM.envBad : SAM.PinEnv where
  g_APinDescription := fun _ =>
    { ulPinType := SAM.PioType.PIO_NOT_A_PIN, ulPin := 0,
      PIO_PDSR := 0, PIO_ODSR := 0, PIO_OSR := 0 }

/-- Sample indeterminate pre-construction SAM object memory. -/
def SAM.sInit : SAM.State where
  extPwrCtrl := true
  pwrCtrlConfigured := true
  dtaGpio := { bmsk := 0x01, inReg := 0x07, outReg := 0x07, modReg := 0x07 }
  dtaPull := false
  pwrCtrlGpio := { bmsk := 0x02, outReg := 0x07, modReg := 0x07 }

/-- Sample SAM state produced by the two-argument constructor. -/
def SAM.sCtor2 : SAM.State :=
  match SAM.ctor2 SAM.envOk SAM.sInit 3 true with
  | Except.ok s => s
  | Except.error _ => SAM.sInit

/-- Sample SAM state produced by the three-argument constructor. -/
def SAM.sCtor3 : SAM.State :=
  match SAM.ctor3 SAM.envOk SAM.sInit 3 5 false with
  | Except.ok s => s
  | Except.error _ => SAM.sInit

/-- Sample SAM state whose lines are both in the input direction. -/
def SAM.sIdle : SAM.State where
  extPwrCtrl := false
  pwrCtrlConfigured := false
  dtaGpio := { bmsk := 0x04, inReg := 0x04, outReg := 0x00, modReg := 0x00 }
  dtaPull := true
  pwrCtrlGpio := { bmsk := 0x08, outReg := 0x00, modReg := 0x00 }

/- ------------------------------------------------------------------ -/
/- Helper lemmas.                                                     -/
/- ------------------------------------------------------------------ -/

theorem bitClr_land_self (reg msk : Nat) : bitClr reg msk &&& msk = 0 := by
  apply Nat.eq_of_testBit_eq
  intro i
  simp only [bitClr, Nat.testBit_land, Nat.testBit_ldiff, Nat.zero_testBit]
  cases Nat.testBit msk i <;> simp

theorem lor_land_self (reg msk : Nat) : (reg ||| msk) &&& msk = msk := by
  apply Nat.eq_of_testBit_eq
  intro i
  simp only [Nat.testBit_land, Nat.testBit_lor]
  cases Nat.testBit msk i <;> simp

theorem crc8_round_self (c : Nat) : crc8_round (c, c) = (c / 2, c / 2) := by
  simp [crc8_round, Nat.xor_self]

theorem crc8_round_iter_self (n c : Nat) :
    crc8_round^[n] (c, c) = (c / 2 ^ n, c / 2 ^ n) := by
  induction n with
  | zero => simp
  | succ n ih =>
      rw [Function.iterate_succ_apply', ih, crc8_round_self]
      simp [Nat.div_div_eq_div_mul, Nat.pow_succ]

theorem crc8_update_self (c : Nat) (h : c < 256) : crc8_update c c = 0 := by
  rw [crc8_update, crc8_round_iter_self]
  exact Nat.div_eq_of_lt h

theorem crc8_round_fst_lt (p : Nat × Nat) (h : p.1 < 256) :
    (crc8_round p).1 < 256 := by
  rw [crc8_round]
  split
  · have h1 : p.1 / 2 < 2 ^ 8 := by omega
    have h2 : (0x8C : Nat) < 2 ^ 8 := by norm_num
    simpa using Nat.xor_lt_two_pow h1 h2
  · simp only []
    omega

theorem crc8_update_lt (c b : Nat) (h : c < 256) : crc8_update c b < 256 := by
  rw [crc8_update]
  have key : ∀ n (p : Nat × Nat), p.1 < 256 → (crc8_round^[n] p).1 < 256 := by
    intro n
    induction n with
    | zero => intro p hp; simpa using hp
    | succ n ih =>
        intro p hp
        rw [Function.iterate_succ_apply']
        exact crc8_round_fst_lt _ (ih p hp)
  exact key 8 (c, b) h

theorem crc8_lt (data : List Nat) : crc8 data < 256 := by
  rw [crc8]
  have key : ∀ (l : List Nat) (c : Nat), c < 256 →
      List.foldl crc8_update c l < 256 := by
    intro l
    induction l with
    | nil => intro c hc; simpa using hc
    | cons b t ih =>
        intro c hc
        exact ih _ (crc8_update_lt c b hc)
  exact key data 0 (by norm_num)

/- ------------------------------------------------------------------ -/
/- Claim theorems.                                                    -/
/- ------------------------------------------------------------------ -/

set_option maxRecDepth 4000

/-- Claim C8: for every finite byte sequence `data`, the CRC-8 of `data`
extended by one byte equal to `crc8 data` is 0; moreover the engine is
bit-identical to the Dallas/Maxim reference polynomial, as pinned by the
published reference ROM `02 1C B8 01 00 00 00`, whose CRC byte is `A2`. -/
theorem C8_crc8_round_trip :
    (∀ data : List Nat, crc8 (data ++ [crc8 data]) = 0) ∧
    crc8 [0x02, 0x1C, 0xB8, 0x01, 0x00, 0x00, 0x00] = 0xA2 := by
  constructor
  · intro data
    have h := crc8_lt data
    simp only [crc8, List.foldl_append, List.foldl_cons, List.foldl_nil] at h ⊢
    exact crc8_update_self _ h
  · decide

/-- Claim C3: for every platform adapter and every GPIO designator
argument, `readGpioIn` returns exactly 0 or 1, and returns 1 precisely
when the data line's input-register bit selected by the configured pin
mask is high (on STM32 the input level is obtained through
`digitalReadFast` on the data pin). -/
theorem C3_readGpioIn_input_bit :
    (∀ (s : MegaAVR.State) (g : GpioType),
      (s.readGpioIn g = 0 ∨ s.readGpioIn g = 1) ∧
      (s.readGpioIn g = 1 ↔ s.dtaGpio.port.IN &&& s.dtaGpio.bmsk ≠ 0)) ∧
    (∀ (s : ESP32.State) (g : GpioType),
      (s.readGpioIn g = 0 ∨ s.readGpioIn g = 1) ∧
      (s.readGpioIn g = 1 ↔ s.dtaGpio.inReg &&& s.dtaGpio.bmsk ≠ 0)) ∧
    (∀ (s : STM32.State) (g : GpioType),
      (s.readGpioIn g = 0 ∨ s.readGpioIn g = 1) ∧
      (s.readGpioIn g = 1 ↔ STM32.digitalReadFast s.dtaGpio = true)) ∧
    (∀ (s : SAM.State) (g : GpioType),
      (s.readGpioIn g = 0 ∨ s.readGpioIn g = 1) ∧
      (s.readGpioIn g = 1 ↔ s.dtaGpio.inReg &&& s.dtaGpio.bmsk ≠ 0)) := by
  refine ⟨?_, ?_, ?_, ?_⟩
  · intro s g
    by_cases h : s.dtaGpio.port.IN &&& s.dtaGpio.bmsk = 0 <;>
      simp [MegaAVR.State.readGpioIn, MegaAVR.READ_GPIO_op, h]
  · intro s g
    by_cases h : s.dtaGpio.inReg &&& s.dtaGpio.bmsk = 0 <;>
      simp [ESP32.State.readGpioIn, ESP32.DtaGpio.READ_GPIO_op, h]
  · intro s g
    by_cases h : s.dtaGpio.idr = true <;>
      simp [STM32.State.readGpioIn, STM32.digitalReadFast, h]
  · intro s g
    by_cases h : s.dtaGpio.inReg &&& s.dtaGpio.bmsk = 0 <;>
      simp [SAM.State.readGpioIn, SAM.DtaGpio.READ_GPIO_op, h]

/-- Claim C9: for every platform adapter, `readGpioIn` and
`setGpioAsInput` ignore their GPIO designator argument entirely: for
every argument value — the power-control designator included —
`readGpioIn` reads the data line and `setGpioAsInput` reconfigures the
data line as input, never touching the power-control line. -/
theorem C9_designator_ignored :
    (∀ (s : MegaAVR.State) (g : GpioType),
      s.readGpioIn g = s.readGpioIn GpioType.GPIO_DTA ∧
      s.setGpioAsInput g = s.setGpioAsInput GpioType.GPIO_DTA ∧
      (s.setGpioAsInput g).pwrCtrlGpio = s.pwrCtrlGpio ∧
      (s.setGpioAsInput g).pwrCtrlCtrl = s.pwrCtrlCtrl ∧
      (s.setGpioAsInput g).dtaGpio.port.DIR &&& s.dtaGpio.bmsk = 0 ∧
      (s.setGpioAsInput g).dtaGpio.port.OUT = s.dtaGpio.port.OUT) ∧
    (∀ (s : ESP32.State) (g : GpioType),
      s.readGpioIn g = s.readGpioIn GpioType.GPIO_DTA ∧
      s.setGpioAsInput g = s.setGpioAsInput GpioType.GPIO_DTA ∧
      (s.setGpioAsInput g).pwrCtrlGpio = s.pwrCtrlGpio ∧
      (s.setGpioAsInput g).dtaGpio.modReg &&& s.dtaGpio.bmsk = 0 ∧
      (s.setGpioAsInput g).dtaGpio.outReg = s.dtaGpio.outReg) ∧
    (∀ (s : STM32.State) (g : GpioType),
      s.readGpioIn g = s.readGpioIn GpioType.GPIO_DTA ∧
      s.setGpioAsInput g = s.setGpioAsInput GpioType.GPIO_DTA ∧
      (s.setGpioAsInput g).pwrCtrlGpio = s.pwrCtrlGpio ∧
      (s.setGpioAsInput g).dtaGpio.mode = STM32.PinMode.LL_GPIO_MODE_INPUT ∧
      (s.setGpioAsInput g).dtaGpio.odr = s.dtaGpio.odr) ∧
    (∀ (s : SAM.State) (g : GpioType),
      s.readGpioIn g = s.readGpioIn GpioType.GPIO_DTA ∧
      s.setGpioAsInput g = s.setGpioAsInput GpioType.GPIO_DTA ∧
      (s.setGpioAsInput g).pwrCtrlGpio = s.pwrCtrlGpio ∧
      (s.setGpioAsInput g).dtaGpio.modReg &&& s.dtaGpio.bmsk = 0 ∧
      (s.setGpioAsInput g).dtaGpio.outReg = s.dtaGpio.outReg) := by
  refine ⟨?_, ?_, ?_, ?_⟩
  · intro s g
    simp [MegaAVR.State.readGpioIn, MegaAVR.State.setGpioAsInput,
      MegaAVR.GPIO_AS_INPUT, bitClr_land_self]
  · intro s g
    simp [ESP32.State.readGpioIn, ESP32.State.setGpioAsInput,
      ESP32.DtaGpio.GPIO_AS_INPUT, bitClr_land_self]
  · intro s g
    simp [STM32.State.readGpioIn, STM32.State.setGpioAsInput,
      STM32.LL_GPIO_SetPinMode]
  · intro s g
    simp [SAM.State.readGpioIn, SAM.State.setGpioAsInput,
      SAM.DtaGpio.GPIO_AS_INPUT, bitClr_land_self]

/-- Claim C10: for every platform adapter, `writeGpioOut` and
`setGpioAsOutput` treat every designator other than `GPIO_DTA` as the
power-control line and act on it unconditionally: the data line is left
alone, the power-control registers are written, and the outcome is
independent of whether a power-control line was ever configured (the
`pwrCtrlConfigured` flag) — there is no guard and no error path, the
operations being total. -/
theorem C10_pwr_designator_unguarded :
    (∀ (s : MegaAVR.State) (st : Nat) (b : Bool),
      (s.writeGpioOut GpioType.GPIO_CTRL_PWR st).pwrCtrlGpio.port.OUT =
        (if st != 0 then s.pwrCtrlGpio.port.OUT ||| s.pwrCtrlGpio.bmsk
         else bitClr s.pwrCtrlGpio.port.OUT s.pwrCtrlGpio.bmsk) ∧
      (s.writeGpioOut GpioType.GPIO_CTRL_PWR st).dtaGpio = s.dtaGpio ∧
      (({ s with pwrCtrlConfigured := b }).writeGpioOut
          GpioType.GPIO_CTRL_PWR st).pwrCtrlGpio =
        (s.writeGpioOut GpioType.GPIO_CTRL_PWR st).pwrCtrlGpio ∧
      (s.setGpioAsOutput GpioType.GPIO_CTRL_PWR st).pwrCtrlGpio.port.DIR &&&
          s.pwrCtrlGpio.bmsk = s.pwrCtrlGpio.bmsk ∧
      (s.setGpioAsOutput GpioType.GPIO_CTRL_PWR st).dtaGpio = s.dtaGpio ∧
      (({ s with pwrCtrlConfigured := b }).setGpioAsOutput
          GpioType.GPIO_CTRL_PWR st).pwrCtrlGpio =
        (s.setGpioAsOutput GpioType.GPIO_CTRL_PWR st).pwrCtrlGpio) ∧
    (∀ (s : ESP32.State) (st : Nat) (b : Bool),
      (s.writeGpioOut GpioType.GPIO_CTRL_PWR st).pwrCtrlGpio.outReg =
        (if st != 0 then s.pwrCtrlGpio.outReg ||| s.pwrCtrlGpio.bmsk
         else bitClr s.pwrCtrlGpio.outReg s.pwrCtrlGpio.bmsk) ∧
      (s.writeGpioOut GpioType.GPIO_CTRL_PWR st).dtaGpio = s.dtaGpio ∧
      (({ s with pwrCtrlConfigured := b }).writeGpioOut
          GpioType.GPIO_CTRL_PWR st).pwrCtrlGpio =
        (s.writeGpioOut GpioType.GPIO_CTRL_PWR st).pwrCtrlGpio ∧
      (s.setGpioAsOutput GpioType.GPIO_CTRL_PWR st).pwrCtrlGpio.modReg &&&
          s.pwrCtrlGpio.bmsk = s.pwrCtrlGpio.bmsk ∧
      (s.setGpioAsOutput GpioType.GPIO_CTRL_PWR st).dtaGpio = s.dtaGpio ∧
      (({ s with pwrCtrlConfigured := b }).setGpioAsOutput
          GpioType.GPIO_CTRL_PWR st).pwrCtrlGpio =
        (s.setGpioAsOutput GpioType.GPIO_CTRL_PWR st).pwrCtrlGpio) ∧
    (∀ (s : STM32.State) (st : Nat) (b : Bool),
      (s.writeGpioOut GpioType.GPIO_CTRL_PWR st).pwrCtrlGpio.odr = (st != 0) ∧
      (s.writeGpioOut GpioType.GPIO_CTRL_PWR st).dtaGpio = s.dtaGpio ∧
      (({ s with pwrCtrlConfigured := b }).writeGpioOut
          GpioType.GPIO_CTRL_PWR st).pwrCtrlGpio =
        (s.writeGpioOut GpioType.GPIO_CTRL_PWR st).pwrCtrlGpio ∧
      (s.setGpioAsOutput GpioType.GPIO_CTRL_PWR st).pwrCtrlGpio.mode =
        STM32.PinMode.LL_GPIO_MODE_OUTPUT ∧
      (s.setGpioAsOutput GpioType.GPIO_CTRL_PWR st).dtaGpio = s.dtaGpio ∧
      (({ s with pwrCtrlConfigured := b }).setGpioAsOutput
          GpioType.GPIO_CTRL_PWR st).pwrCtrlGpio =
        (s.setGpioAsOutput GpioType.GPIO_CTRL_PWR st).pwrCtrlGpio) ∧
    (∀ (s : SAM.State) (st : Nat) (b : Bool),
      (s.writeGpioOut GpioType.GPIO_CTRL_PWR st).pwrCtrlGpio.outReg =
        (if st != 0 then s.pwrCtrlGpio.outReg ||| s.pwrCtrlGpio.bmsk
         else bitClr s.pwrCtrlGpio.outReg s.pwrCtrlGpio.bmsk) ∧
      (s.writeGpioOut GpioType.GPIO_CTRL_PWR st).dtaGpio = s.dtaGpio ∧
      (({ s with pwrCtrlConfigured := b }).writeGpioOut
          GpioType.GPIO_CTRL_PWR st).pwrCtrlGpio =
        (s.writeGpioOut GpioType.GPIO_CTRL_PWR st).pwrCtrlGpio ∧
      (s.setGpioAsOutput GpioType.GPIO_CTRL_PWR st).pwrCtrlGpio.modReg &&&
          s.pwrCtrlGpio.bmsk = s.pwrCtrlGpio.bmsk ∧
      (s.setGpioAsOutput GpioType.GPIO_CTRL_PWR st).dtaGpio = s.dtaGpio ∧
      (({ s with pwrCtrlConfigured := b }).setGpioAsOutput
          GpioType.GPIO_CTRL_PWR st).pwrCtrlGpio =
        (s.setGpioAsOutput GpioType.GPIO_CTRL_PWR st).pwrCtrlGpio) := by
  refine ⟨?_, ?_, ?_, ?_⟩
  · intro s st b
    cases hb : st != 0 <;>
      simp [MegaAVR.State.writeGpioOut, MegaAVR.State.setGpioAsOutput,
        MegaAVR.WRITE_GPIO_op, MegaAVR.GPIO_AS_OUTPUT, hb, lor_land_self]
  · intro s st b
    cases hb : st != 0 <;>
      simp [ESP32.State.writeGpioOut, ESP32.State.setGpioAsOutput,
        ESP32.PwrGpio.WRITE_GPIO_op, ESP32.PwrGpio.GPIO_AS_OUTPUT, hb,
        lor_land_self]
  · intro s st b
    cases hb : st != 0 <;>
      simp [STM32.State.writeGpioOut, STM32.State.setGpioAsOutput,
        STM32.digitalWriteFast, STM32.LL_GPIO_SetPinMode, hb]
  · intro s st b
    cases hb : st != 0 <;>
      simp [SAM.State.writeGpioOut, SAM.State.setGpioAsOutput,
        SAM.PwrGpio.WRITE_GPIO_op, SAM.PwrGpio.GPIO_AS_OUTPUT, hb,
        lor_land_self]

/-- Claim C1: for every platform adapter (megaAVR, ESP32, STM32, SAM) and
every output level, `writeGpioOut` with the data-line designator
`GPIO_DTA` modifies only the data line's output register and leaves the
power-control line's registers and direction unchanged, while
`writeGpioOut` with any other designator modifies only the power-control
line and leaves the data line unchanged. -/
theorem C1_writeGpioOut_frame :
    (∀ (s : MegaAVR.State) (st : Nat),
      (s.writeGpioOut GpioType.GPIO_DTA st).dtaGpio.port.OUT =
        (if st != 0 then s.dtaGpio.port.OUT ||| s.dtaGpio.bmsk
         else bitClr s.dtaGpio.port.OUT s.dtaGpio.bmsk) ∧
      (s.writeGpioOut GpioType.GPIO_DTA st).dtaGpio.port.DIR =
        s.dtaGpio.port.DIR ∧
      (s.writeGpioOut GpioType.GPIO_DTA st).dtaGpio.port.IN =
        s.dtaGpio.port.IN ∧
      (s.writeGpioOut GpioType.GPIO_DTA st).dtaGpio.bmsk = s.dtaGpio.bmsk ∧
      (s.writeGpioOut GpioType.GPIO_DTA st).dtaCtrl = s.dtaCtrl ∧
      (s.writeGpioOut GpioType.GPIO_DTA st).pwrCtrlGpio = s.pwrCtrlGpio ∧
      (s.writeGpioOut GpioType.GPIO_DTA st).pwrCtrlCtrl = s.pwrCtrlCtrl ∧
      (s.writeGpioOut GpioType.GPIO_CTRL_PWR st).pwrCtrlGpio.port.OUT =
        (if st != 0 then s.pwrCtrlGpio.port.OUT ||| s.pwrCtrlGpio.bmsk
         else bitClr s.pwrCtrlGpio.port.OUT s.pwrCtrlGpio.bmsk) ∧
      (s.writeGpioOut GpioType.GPIO_CTRL_PWR st).pwrCtrlGpio.port.DIR =
        s.pwrCtrlGpio.port.DIR ∧
      (s.writeGpioOut GpioType.GPIO_CTRL_PWR st).pwrCtrlGpio.bmsk =
        s.pwrCtrlGpio.bmsk ∧
      (s.writeGpioOut GpioType.GPIO_CTRL_PWR st).dtaGpio = s.dtaGpio ∧
      (s.writeGpioOut GpioType.GPIO_CTRL_PWR st).dtaCtrl = s.dtaCtrl) ∧
    (∀ (s : ESP32.State) (st : Nat),
      (s.writeGpioOut GpioType.GPIO_DTA st).dtaGpio.outReg =
        (if st != 0 then s.dtaGpio.outReg ||| s.dtaGpio.bmsk
         else bitClr s.dtaGpio.outReg s.dtaGpio.bmsk) ∧
      (s.writeGpioOut GpioType.GPIO_DTA st).dtaGpio.modReg =
        s.dtaGpio.modReg ∧
      (s.writeGpioOut GpioType.GPIO_DTA st).dtaGpio.inReg = s.dtaGpio.inReg ∧
      (s.writeGpioOut GpioType.GPIO_DTA st).dtaGpio.bmsk = s.dtaGpio.bmsk ∧
      (s.writeGpioOut GpioType.GPIO_DTA st).dtaPull = s.dtaPull ∧
      (s.writeGpioOut GpioType.GPIO_DTA st).pwrCtrlGpio = s.pwrCtrlGpio ∧
      (s.writeGpioOut GpioType.GPIO_CTRL_PWR st).pwrCtrlGpio.outReg =
        (if st != 0 then s.pwrCtrlGpio.outReg ||| s.pwrCtrlGpio.bmsk
         else bitClr s.pwrCtrlGpio.outReg s.pwrCtrlGpio.bmsk) ∧
      (s.writeGpioOut GpioType.GPIO_CTRL_PWR st).pwrCtrlGpio.modReg =
        s.pwrCtrlGpio.modReg ∧
      (s.writeGpioOut GpioType.GPIO_CTRL_PWR st).pwrCtrlGpio.bmsk =
        s.pwrCtrlGpio.bmsk ∧
      (s.writeGpioOut GpioType.GPIO_CTRL_PWR st).dtaGpio = s.dtaGpio ∧
      (s.writeGpioOut GpioType.GPIO_CTRL_PWR st).dtaPull = s.dtaPull) ∧
    (∀ (s : STM32.State) (st : Nat),
      (s.writeGpioOut GpioType.GPIO_DTA st).dtaGpio.odr = (st != 0) ∧
      (s.writeGpioOut GpioType.GPIO_DTA st).dtaGpio.mode = s.dtaGpio.mode ∧
      (s.writeGpioOut GpioType.GPIO_DTA st).dtaGpio.idr = s.dtaGpio.idr ∧
      (s.writeGpioOut GpioType.GPIO_DTA st).dtaGpio.pull = s.dtaGpio.pull ∧
      (s.writeGpioOut GpioType.GPIO_DTA st).pwrCtrlGpio = s.pwrCtrlGpio ∧
      (s.writeGpioOut GpioType.GPIO_CTRL_PWR st).pwrCtrlGpio.odr =
        (st != 0) ∧
      (s.writeGpioOut GpioType.GPIO_CTRL_PWR st).pwrCtrlGpio.mode =
        s.pwrCtrlGpio.mode ∧
      (s.writeGpioOut GpioType.GPIO_CTRL_PWR st).pwrCtrlGpio.pull =
        s.pwrCtrlGpio.pull ∧
      (s.writeGpioOut GpioType.GPIO_CTRL_PWR st).dtaGpio = s.dtaGpio) ∧
    (∀ (s : SAM.State) (st : Nat),
      (s.writeGpioOut GpioType.GPIO_DTA st).dtaGpio.outReg =
        (if st != 0 then s.dtaGpio.outReg ||| s.dtaGpio.bmsk
         else bitClr s.dtaGpio.outReg s.dtaGpio.bmsk) ∧
      (s.writeGpioOut GpioType.GPIO_DTA st).dtaGpio.modReg =
        s.dtaGpio.modReg ∧
      (s.writeGpioOut GpioType.GPIO_DTA st).dtaGpio.inReg = s.dtaGpio.inReg ∧
      (s.writeGpioOut GpioType.GPIO_DTA st).dtaGpio.bmsk = s.dtaGpio.bmsk ∧
      (s.writeGpioOut GpioType.GPIO_DTA st).pwrCtrlGpio = s.pwrCtrlGpio ∧
      (s.writeGpioOut GpioType.GPIO_CTRL_PWR st).pwrCtrlGpio.outReg =
        (if st != 0 then s.pwrCtrlGpio.outReg ||| s.pwrCtrlGpio.bmsk
         else bitClr s.pwrCtrlGpio.outReg s.pwrCtrlGpio.bmsk) ∧
      (s.writeGpioOut GpioType.GPIO_CTRL_PWR st).pwrCtrlGpio.modReg =
        s.pwrCtrlGpio.modReg ∧
      (s.writeGpioOut GpioType.GPIO_CTRL_PWR st).pwrCtrlGpio.bmsk =
        s.pwrCtrlGpio.bmsk ∧
      (s.writeGpioOut GpioType.GPIO_CTRL_PWR st).dtaGpio = s.dtaGpio) := by
  refine ⟨?_, ?_, ?_, ?_⟩
  · intro s st
    cases hb : st != 0 <;>
      simp [MegaAVR.State.writeGpioOut, MegaAVR.WRITE_GPIO_op, hb]
  · intro s st
    cases hb : st != 0 <;>
      simp [ESP32.State.writeGpioOut, ESP32.DtaGpio.WRITE_GPIO_op,
        ESP32.DtaGpio.WRITE0_GPIO_op, ESP32.DtaGpio.WRITE1_GPIO_op,
        ESP32.PwrGpio.WRITE_GPIO_op, hb]
  · intro s st
    cases hb : st != 0 <;>
      simp [STM32.State.writeGpioOut, STM32.digitalWriteFast, hb]
  · intro s st
    cases hb : st != 0 <;>
      simp [SAM.State.writeGpioOut, SAM.DtaGpio.WRITE_GPIO_op,
        SAM.PwrGpio.WRITE_GPIO_op, hb]

/-- Claim C7: the ESP32 overdrive bit-read primitive `touch1Overdrive`
performs, in order: drive the data line low as output (`__WRITE0_GPIO`
then `__GPIO_AS_OUTPUT`), delay, write high to the output register
(`__WRITE1_GPIO`), release the line to input (`__GPIO_AS_INPUT`), then
sample the input register once and return the sampled level as the bit
value. -/
theorem C7_touch1Overdrive_order :
    ESP32.touch1OverdriveSteps =
      [ESP32.Step.WRITE0_GPIO_op ESP32.Line.dta,
       ESP32.Step.GPIO_AS_OUTPUT ESP32.Line.dta,
       ESP32.Step.delayMicroseconds 0,
       ESP32.Step.WRITE1_GPIO_op ESP32.Line.dta,
       ESP32.Step.GPIO_AS_INPUT ESP32.Line.dta,
       ESP32.Step.READ_GPIO_op ESP32.Line.dta] ∧
    (∀ s : ESP32.State,
      (s.touch1Overdrive).2 =
        List.foldl ESP32.Step.apply s ESP32.touch1OverdriveSteps ∧
      ((s.touch1Overdrive).1 = 0 ∨ (s.touch1Overdrive).1 = 1) ∧
      ((s.touch1Overdrive).1 = 1 ↔
        (s.touch1Overdrive).2.dtaGpio.inReg &&&
          (s.touch1Overdrive).2.dtaGpio.bmsk ≠ 0) ∧
      (s.touch1Overdrive).2.dtaGpio.inReg = s.dtaGpio.inReg ∧
      (s.touch1Overdrive).2.dtaGpio.bmsk = s.dtaGpio.bmsk ∧
      (s.touch1Overdrive).2.dtaGpio.modReg &&& s.dtaGpio.bmsk = 0 ∧
      (s.touch1Overdrive).2.dtaGpio.outReg &&& s.dtaGpio.bmsk =
        s.dtaGpio.bmsk ∧
      (s.touch1Overdrive).2.pwrCtrlGpio = s.pwrCtrlGpio) := by
  constructor
  · rfl
  · intro s
    refine ⟨?_, ?_, ?_, ?_, ?_, ?_, ?_, ?_⟩ <;>
      by_cases h : s.dtaGpio.inReg &&& s.dtaGpio.bmsk = 0 <;>
      simp [ESP32.State.touch1Overdrive, ESP32.touch1OverdriveSteps,
        ESP32.Step.apply, ESP32.DtaGpio.WRITE0_GPIO_op, ESP32.DtaGpio.WRITE1_GPIO_op,
        ESP32.DtaGpio.GPIO_AS_INPUT, ESP32.DtaGpio.GPIO_AS_OUTPUT,
        ESP32.DtaGpio.READ_GPIO_op, bitClr_land_self, lor_land_self, h]

/-- Claim C2: for every platform adapter, every line designator and every
requested initial level, `setGpioAsOutput` writes the requested level to
the line's output register strictly before switching the line's direction
to output: the primitive-step sequence is the write followed by the
direction switch, the step semantics agrees with the method, the write
step never changes any direction register, the level driven once the
direction switches is exactly the requested one, and a line that starts
undriven (input) is still undriven after the write step — so the line is
never driven at any level other than the requested initial level. -/
theorem C2_setGpioAsOutput_write_first :
    (∀ (s : MegaAVR.State) (st : Nat),
      MegaAVR.setGpioAsOutputSteps GpioType.GPIO_DTA st =
        [MegaAVR.Step.WRITE_GPIO_op MegaAVR.Line.dta st,
         MegaAVR.Step.GPIO_AS_OUTPUT MegaAVR.Line.dta] ∧
      MegaAVR.setGpioAsOutputSteps GpioType.GPIO_CTRL_PWR st =
        [MegaAVR.Step.WRITE_GPIO_op MegaAVR.Line.pwr st,
         MegaAVR.Step.GPIO_AS_OUTPUT MegaAVR.Line.pwr] ∧
      (∀ g, List.foldl MegaAVR.Step.apply s
          (MegaAVR.setGpioAsOutputSteps g st) = s.setGpioAsOutput g st) ∧
      (∀ l,
        (MegaAVR.Step.apply s (MegaAVR.Step.WRITE_GPIO_op l st)).dtaGpio.port.DIR
          = s.dtaGpio.port.DIR ∧
        (MegaAVR.Step.apply s
            (MegaAVR.Step.WRITE_GPIO_op l st)).pwrCtrlGpio.port.DIR
          = s.pwrCtrlGpio.port.DIR) ∧
      (s.setGpioAsOutput GpioType.GPIO_DTA st).dtaGpio.port.OUT &&&
          s.dtaGpio.bmsk = (if st != 0 then s.dtaGpio.bmsk else 0) ∧
      (s.setGpioAsOutput GpioType.GPIO_CTRL_PWR st).pwrCtrlGpio.port.OUT &&&
          s.pwrCtrlGpio.bmsk = (if st != 0 then s.pwrCtrlGpio.bmsk else 0) ∧
      (s.dtaGpio.port.DIR &&& s.dtaGpio.bmsk = 0 ∧
          s.pwrCtrlGpio.port.DIR &&& s.pwrCtrlGpio.bmsk = 0 →
        (MegaAVR.Step.apply s
            (MegaAVR.Step.WRITE_GPIO_op MegaAVR.Line.dta st)).dtaGpio.port.DIR
            &&& s.dtaGpio.bmsk = 0 ∧
        (MegaAVR.Step.apply s
            (MegaAVR.Step.WRITE_GPIO_op MegaAVR.Line.pwr st)).pwrCtrlGpio.port.DIR
            &&& s.pwrCtrlGpio.bmsk = 0)) ∧
    (∀ (s : ESP32.State) (st : Nat),
      ESP32.setGpioAsOutputSteps GpioType.GPIO_DTA st =
        [ESP32.Step.WRITE_GPIO_op ESP32.Line.dta st,
         ESP32.Step.GPIO_AS_OUTPUT ESP32.Line.dta] ∧
      ESP32.setGpioAsOutputSteps GpioType.GPIO_CTRL_PWR st =
        [ESP32.Step.WRITE_GPIO_op ESP32.Line.pwr st,
         ESP32.Step.GPIO_AS_OUTPUT ESP32.Line.pwr] ∧
      (∀ g, List.foldl ESP32.Step.apply s
          (ESP32.setGpioAsOutputSteps g st) = s.setGpioAsOutput g st) ∧
      (∀ l,
        (ESP32.Step.apply s (ESP32.Step.WRITE_GPIO_op l st)).dtaGpio.modReg
          = s.dtaGpio.modReg ∧
        (ESP32.Step.apply s (ESP32.Step.WRITE_GPIO_op l st)).pwrCtrlGpio.modReg
          = s.pwrCtrlGpio.modReg) ∧
      (s.setGpioAsOutput GpioType.GPIO_DTA st).dtaGpio.outReg &&&
          s.dtaGpio.bmsk = (if st != 0 then s.dtaGpio.bmsk else 0) ∧
      (s.setGpioAsOutput GpioType.GPIO_CTRL_PWR st).pwrCtrlGpio.outReg &&&
          s.pwrCtrlGpio.bmsk = (if st != 0 then s.pwrCtrlGpio.bmsk else 0) ∧
      (s.dtaGpio.modReg &&& s.dtaGpio.bmsk = 0 ∧
          s.pwrCtrlGpio.modReg &&& s.pwrCtrlGpio.bmsk = 0 →
        (ESP32.Step.apply s
            (ESP32.Step.WRITE_GPIO_op ESP32.Line.dta st)).dtaGpio.modReg
            &&& s.dtaGpio.bmsk = 0 ∧
        (ESP32.Step.apply s
            (ESP32.Step.WRITE_GPIO_op ESP32.Line.pwr st)).pwrCtrlGpio.modReg
            &&& s.pwrCtrlGpio.bmsk = 0)) ∧
    (∀ (s : STM32.State) (st : Nat),
      STM32.setGpioAsOutputSteps GpioType.GPIO_DTA st =
        [STM32.Step.digitalWriteFast STM32.Line.dta st,
         STM32.Step.setPinMode STM32.Line.dta
           STM32.PinMode.LL_GPIO_MODE_OUTPUT] ∧
      STM32.setGpioAsOutputSteps GpioType.GPIO_CTRL_PWR st =
        [STM32.Step.digitalWriteFast STM32.Line.pwr st,
         STM32.Step.setPinMode STM32.Line.pwr
           STM32.PinMode.LL_GPIO_MODE_OUTPUT] ∧
      (∀ g, List.foldl STM32.Step.apply s
          (STM32.setGpioAsOutputSteps g st) = s.setGpioAsOutput g st) ∧
      (∀ l,
        (STM32.Step.apply s (STM32.Step.digitalWriteFast l st)).dtaGpio.mode
          = s.dtaGpio.mode ∧
        (STM32.Step.apply s
            (STM32.Step.digitalWriteFast l st)).pwrCtrlGpio.mode
          = s.pwrCtrlGpio.mode) ∧
      (s.setGpioAsOutput GpioType.GPIO_DTA st).dtaGpio.odr = (st != 0) ∧
      (s.setGpioAsOutput GpioType.GPIO_CTRL_PWR st).pwrCtrlGpio.odr =
        (st != 0) ∧
      (s.dtaGpio.mode = STM32.PinMode.LL_GPIO_MODE_INPUT ∧
          s.pwrCtrlGpio.mode = STM32.PinMode.LL_GPIO_MODE_INPUT →
        (STM32.Step.apply s
            (STM32.Step.digitalWriteFast STM32.Line.dta st)).dtaGpio.mode
          = STM32.PinMode.LL_GPIO_MODE_INPUT ∧
        (STM32.Step.apply s
            (STM32.Step.digitalWriteFast STM32.Line.pwr st)).pwrCtrlGpio.mode
          = STM32.PinMode.LL_GPIO_MODE_INPUT)) ∧
    (∀ (s : SAM.State) (st : Nat),
      SAM.setGpioAsOutputSteps GpioType.GPIO_DTA st =
        [SAM.Step.WRITE_GPIO_op SAM.Line.dta st,
         SAM.Step.GPIO_AS_OUTPUT SAM.Line.dta] ∧
      SAM.setGpioAsOutputSteps GpioType.GPIO_CTRL_PWR st =
        [SAM.Step.WRITE_GPIO_op SAM.Line.pwr st,
         SAM.Step.GPIO_AS_OUTPUT SAM.Line.pwr] ∧
      (∀ g, List.foldl SAM.Step.apply s
          (SAM.setGpioAsOutputSteps g st) = s.setGpioAsOutput g st) ∧
      (∀ l,
        (SAM.Step.apply s (SAM.Step.WRITE_GPIO_op l st)).dtaGpio.modReg
          = s.dtaGpio.modReg ∧
        (SAM.Step.apply s (SAM.Step.WRITE_GPIO_op l st)).pwrCtrlGpio.modReg
          = s.pwrCtrlGpio.modReg) ∧
      (s.setGpioAsOutput GpioType.GPIO_DTA st).dtaGpio.outReg &&&
          s.dtaGpio.bmsk = (if st != 0 then s.dtaGpio.bmsk else 0) ∧
      (s.setGpioAsOutput GpioType.GPIO_CTRL_PWR st).pwrCtrlGpio.outReg &&&
          s.pwrCtrlGpio.bmsk = (if st != 0 then s.pwrCtrlGpio.bmsk else 0) ∧
      (s.dtaGpio.modReg &&& s.dtaGpio.bmsk = 0 ∧
          s.pwrCtrlGpio.modReg &&& s.pwrCtrlGpio.bmsk = 0 →
        (SAM.Step.apply s
            (SAM.Step.WRITE_GPIO_op SAM.Line.dta st)).dtaGpio.modReg
            &&& s.dtaGpio.bmsk = 0 ∧
        (SAM.Step.apply s
            (SAM.Step.WRITE_GPIO_op SAM.Line.pwr st)).pwrCtrlGpio.modReg
            &&& s.pwrCtrlGpio.bmsk = 0)) := by
  refine ⟨?_, ?_, ?_, ?_⟩
  · intro s st
    refine ⟨by simp [MegaAVR.setGpioAsOutputSteps],
      by simp [MegaAVR.setGpioAsOutputSteps], ?_, ?_, ?_, ?_, ?_⟩
    · intro g
      cases g <;> cases hb : st != 0 <;>
        simp [MegaAVR.setGpioAsOutputSteps, MegaAVR.Step.apply,
          MegaAVR.State.setGpioAsOutput, MegaAVR.WRITE_GPIO_op,
          MegaAVR.GPIO_AS_OUTPUT, hb]
    · intro l
      cases l <;> cases hb : st != 0 <;>
        simp [MegaAVR.Step.apply, MegaAVR.WRITE_GPIO_op, hb]
    · cases hb : st != 0 <;>
        simp [MegaAVR.State.setGpioAsOutput, MegaAVR.WRITE_GPIO_op,
          MegaAVR.GPIO_AS_OUTPUT, hb, lor_land_self, bitClr_land_self]
    · cases hb : st != 0 <;>
        simp [MegaAVR.State.setGpioAsOutput, MegaAVR.WRITE_GPIO_op,
          MegaAVR.GPIO_AS_OUTPUT, hb, lor_land_self, bitClr_land_self]
    · intro h
      cases hb : st != 0 <;>
        simp [MegaAVR.Step.apply, MegaAVR.WRITE_GPIO_op, hb, h.1, h.2]
  · intro s st
    refine ⟨by simp [ESP32.setGpioAsOutputSteps],
      by simp [ESP32.setGpioAsOutputSteps], ?_, ?_, ?_, ?_, ?_⟩
    · intro g
      cases g <;> cases hb : st != 0 <;>
        simp [ESP32.setGpioAsOutputSteps, ESP32.Step.apply,
          ESP32.State.setGpioAsOutput, ESP32.DtaGpio.WRITE_GPIO_op,
          ESP32.DtaGpio.WRITE0_GPIO_op, ESP32.DtaGpio.WRITE1_GPIO_op,
          ESP32.PwrGpio.WRITE_GPIO_op, ESP32.DtaGpio.GPIO_AS_OUTPUT,
          ESP32.PwrGpio.GPIO_AS_OUTPUT, hb]
    · intro l
      cases l <;> cases hb : st != 0 <;>
        simp [ESP32.Step.apply, ESP32.DtaGpio.WRITE_GPIO_op,
          ESP32.DtaGpio.WRITE0_GPIO_op, ESP32.DtaGpio.WRITE1_GPIO_op,
          ESP32.PwrGpio.WRITE_GPIO_op, hb]
    · cases hb : st != 0 <;>
        simp [ESP32.State.setGpioAsOutput, ESP32.DtaGpio.WRITE_GPIO_op,
          ESP32.DtaGpio.WRITE0_GPIO_op, ESP32.DtaGpio.WRITE1_GPIO_op,
          ESP32.DtaGpio.GPIO_AS_OUTPUT, hb, lor_land_self, bitClr_land_self]
    · cases hb : st != 0 <;>
        simp [ESP32.State.setGpioAsOutput, ESP32.PwrGpio.WRITE_GPIO_op,
          ESP32.PwrGpio.GPIO_AS_OUTPUT, hb, lor_land_self, bitClr_land_self]
    · intro h
      cases hb : st != 0 <;>
        simp [ESP32.Step.apply, ESP32.DtaGpio.WRITE_GPIO_op,
          ESP32.DtaGpio.WRITE0_GPIO_op, ESP32.DtaGpio.WRITE1_GPIO_op,
          ESP32.PwrGpio.WRITE_GPIO_op, hb, h.1, h.2]
  · intro s st
    refine ⟨by simp [STM32.setGpioAsOutputSteps],
      by simp [STM32.setGpioAsOutputSteps], ?_, ?_, ?_, ?_, ?_⟩
    · intro g
      cases g <;>
        simp [STM32.setGpioAsOutputSteps, STM32.Step.apply,
          STM32.State.setGpioAsOutput, STM32.digitalWriteFast,
          STM32.LL_GPIO_SetPinMode]
    · intro l
      cases l <;> simp [STM32.Step.apply, STM32.digitalWriteFast]
    · simp [STM32.State.setGpioAsOutput, STM32.digitalWriteFast,
        STM32.LL_GPIO_SetPinMode]
    · simp [STM32.State.setGpioAsOutput, STM32.digitalWriteFast,
        STM32.LL_GPIO_SetPinMode]
    · intro h
      simp [STM32.Step.apply, STM32.digitalWriteFast, h.1, h.2]
  · intro s st
    refine ⟨by simp [SAM.setGpioAsOutputSteps],
      by simp [SAM.setGpioAsOutputSteps], ?_, ?_, ?_, ?_, ?_⟩
    · intro g
      cases g <;> cases hb : st != 0 <;>
        simp [SAM.setGpioAsOutputSteps, SAM.Step.apply,
          SAM.State.setGpioAsOutput, SAM.DtaGpio.WRITE_GPIO_op,
          SAM.PwrGpio.WRITE_GPIO_op, SAM.DtaGpio.GPIO_AS_OUTPUT,
          SAM.PwrGpio.GPIO_AS_OUTPUT, hb]
    · intro l
      cases l <;> cases hb : st != 0 <;>
        simp [SAM.Step.apply, SAM.DtaGpio.WRITE_GPIO_op,
          SAM.PwrGpio.WRITE_GPIO_op, hb]
    · cases hb : st != 0 <;>
        simp [SAM.State.setGpioAsOutput, SAM.DtaGpio.WRITE_GPIO_op,
          SAM.DtaGpio.GPIO_AS_OUTPUT, hb, lor_land_self, bitClr_land_self]
    · cases hb : st != 0 <;>
        simp [SAM.State.setGpioAsOutput, SAM.PwrGpio.WRITE_GPIO_op,
          SAM.PwrGpio.GPIO_AS_OUTPUT, hb, lor_land_self, bitClr_land_self]
    · intro h
      cases hb : st != 0 <;>
        simp [SAM.Step.apply, SAM.DtaGpio.WRITE_GPIO_op,
          SAM.PwrGpio.WRITE_GPIO_op, hb, h.1, h.2]

/-- Witness for C2: the undriven-line hypothesis is satisfiable and the
implied conclusion holds at the concrete idle states, requested level 1,
for all four adapters. -/
theorem C2_setGpioAsOutput_write_first_witness :
    ((MegaAVR.sIdle.dtaGpio.port.DIR &&& MegaAVR.sIdle.dtaGpio.bmsk = 0 ∧
        MegaAVR.sIdle.pwrCtrlGpio.port.DIR &&&
          MegaAVR.sIdle.pwrCtrlGpio.bmsk = 0) ∧
      (MegaAVR.Step.apply MegaAVR.sIdle
          (MegaAVR.Step.WRITE_GPIO_op MegaAVR.Line.dta 1)).dtaGpio.port.DIR
          &&& MegaAVR.sIdle.dtaGpio.bmsk = 0 ∧
      (MegaAVR.Step.apply MegaAVR.sIdle
          (MegaAVR.Step.WRITE_GPIO_op MegaAVR.Line.pwr 1)).pwrCtrlGpio.port.DIR
          &&& MegaAVR.sIdle.pwrCtrlGpio.bmsk = 0) ∧
    ((ESP32.sIdle.dtaGpio.modReg &&& ESP32.sIdle.dtaGpio.bmsk = 0 ∧
        ESP32.sIdle.pwrCtrlGpio.modReg &&& ESP32.sIdle.pwrCtrlGpio.bmsk = 0) ∧
      (ESP32.Step.apply ESP32.sIdle
          (ESP32.Step.WRITE_GPIO_op ESP32.Line.dta 1)).dtaGpio.modReg
          &&& ESP32.sIdle.dtaGpio.bmsk = 0 ∧
      (ESP32.Step.apply ESP32.sIdle
          (ESP32.Step.WRITE_GPIO_op ESP32.Line.pwr 1)).pwrCtrlGpio.modReg
          &&& ESP32.sIdle.pwrCtrlGpio.bmsk = 0) ∧
    ((STM32.sIdle.dtaGpio.mode = STM32.PinMode.LL_GPIO_MODE_INPUT ∧
        STM32.sIdle.pwrCtrlGpio.mode = STM32.PinMode.LL_GPIO_MODE_INPUT) ∧
      (STM32.Step.apply STM32.sIdle
          (STM32.Step.digitalWriteFast STM32.Line.dta 1)).dtaGpio.mode
        = STM32.PinMode.LL_GPIO_MODE_INPUT ∧
      (STM32.Step.apply STM32.sIdle
          (STM32.Step.digitalWriteFast STM32.Line.pwr 1)).pwrCtrlGpio.mode
        = STM32.PinMode.LL_GPIO_MODE_INPUT) ∧
    ((SAM.sIdle.dtaGpio.modReg &&& SAM.sIdle.dtaGpio.bmsk = 0 ∧
        SAM.sIdle.pwrCtrlGpio.modReg &&& SAM.sIdle.pwrCtrlGpio.bmsk = 0) ∧
      (SAM.Step.apply SAM.sIdle
          (SAM.Step.WRITE_GPIO_op SAM.Line.dta 1)).dtaGpio.modReg
          &&& SAM.sIdle.dtaGpio.bmsk = 0 ∧
      (SAM.Step.apply SAM.sIdle
          (SAM.Step.WRITE_GPIO_op SAM.Line.pwr 1)).pwrCtrlGpio.modReg
          &&& SAM.sIdle.pwrCtrlGpio.bmsk = 0) :=
  ⟨⟨by decide,
    (C2_setGpioAsOutput_write_first.1 MegaAVR.sIdle 1).2.2.2.2.2.2 (by decide)⟩,
   ⟨by decide,
    (C2_setGpioAsOutput_write_first.2.1 ESP32.sIdle 1).2.2.2.2.2.2 (by decide)⟩,
   ⟨by decide,
    (C2_setGpioAsOutput_write_first.2.2.1 STM32.sIdle 1).2.2.2.2.2.2
      (by decide)⟩,
   ⟨by decide,
    (C2_setGpioAsOutput_write_first.2.2.2 SAM.sIdle 1).2.2.2.2.2.2
      (by decide)⟩⟩

theorem testBit_lor_PULLUPEN (x : Nat) :
    (x ||| MegaAVR.PORT_PULLUPEN_bm).testBit 3 = true := by
  have h8 : Nat.testBit MegaAVR.PORT_PULLUPEN_bm 3 = true := by decide
  simp [Nat.testBit_lor, h8]

theorem testBit_bitClr_PULLUPEN (x : Nat) :
    (bitClr x MegaAVR.PORT_PULLUPEN_bm).testBit 3 = false := by
  have h8 : Nat.testBit MegaAVR.PORT_PULLUPEN_bm 3 = true := by decide
  simp [bitClr, Nat.testBit_ldiff, h8]

theorem avr_initDtaGpio_ok (env : MegaAVR.PinEnv) (s : MegaAVR.State)
    (pin : Nat) (pullUp : Bool) (t : MegaAVR.State)
    (h : MegaAVR.initDtaGpio env s pin pullUp = Except.ok t) :
    t.dtaGpio.port.DIR &&& t.dtaGpio.bmsk = 0 ∧
    t.dtaCtrl.testBit 3 = pullUp ∧
    t.extPwrCtrl = s.extPwrCtrl ∧
    t.pwrCtrlConfigured = s.pwrCtrlConfigured ∧
    t.pwrCtrlGpio = s.pwrCtrlGpio ∧ t.pwrCtrlCtrl = s.pwrCtrlCtrl := by
  simp only [MegaAVR.initDtaGpio] at h
  split at h
  · simp only [Except.ok.injEq] at h
    subst h
    refine ⟨?_, ?_, rfl, rfl, rfl, rfl⟩
    · simp [MegaAVR.State.setupDtaGpio, MegaAVR.GPIO_AS_INPUT,
        bitClr_land_self]
    · cases pullUp
      · exact testBit_bitClr_PULLUPEN _
      · exact testBit_lor_PULLUPEN _
  · exact Except.noConfusion h

theorem avr_initPwrCtrlGpio_ok (env : MegaAVR.PinEnv) (s : MegaAVR.State)
    (pin : Nat) (t : MegaAVR.State)
    (h : MegaAVR.initPwrCtrlGpio env s pin = Except.ok t) :
    t.dtaGpio = s.dtaGpio ∧ t.dtaCtrl = s.dtaCtrl ∧
    t.extPwrCtrl = s.extPwrCtrl ∧ t.pwrCtrlConfigured = true ∧
    t.pwrCtrlGpio.port.DIR &&& t.pwrCtrlGpio.bmsk = t.pwrCtrlGpio.bmsk := by
  simp only [MegaAVR.initPwrCtrlGpio] at h
  split at h
  · simp only [Except.ok.injEq] at h
    subst h
    refine ⟨rfl, rfl, rfl, rfl, ?_⟩
    simp [MegaAVR.State.setupPwrCtrlGpio, MegaAVR.GPIO_AS_OUTPUT,
      lor_land_self]
  · exact Except.noConfusion h

theorem avr_initDtaGpio_err (env : MegaAVR.PinEnv) (s : MegaAVR.State)
    (pin : Nat) (pullUp : Bool)
    (hbad : env.digitalPinToPortStruct pin = none ∨
      env.getPINnCTRLregister (env.digitalPinToPortStruct pin)
        (env.digitalPinToBitPosition pin) = none) :
    MegaAVR.initDtaGpio env s pin pullUp = Except.error () := by
  simp only [MegaAVR.initDtaGpio]
  rcases hbad with hb | hb
  · rw [hb]
  · cases hp : env.digitalPinToPortStruct pin with
    | none =>
        cases hq : env.getPINnCTRLregister none
            (env.digitalPinToBitPosition pin) <;> rfl
    | some port =>
        rw [hp] at hb
        rw [hb]

theorem avr_initDtaGpio_ok_resolved (env : MegaAVR.PinEnv)
    (s : MegaAVR.State) (pin : Nat) (pullUp : Bool) (t : MegaAVR.State)
    (h : MegaAVR.initDtaGpio env s pin pullUp = Except.ok t) :
    (∃ port, env.digitalPinToPortStruct pin = some port) ∧
    (∃ c, env.getPINnCTRLregister (env.digitalPinToPortStruct pin)
      (env.digitalPinToBitPosition pin) = some c) := by
  by_cases hp : env.digitalPinToPortStruct pin = none
  · rw [avr_initDtaGpio_err env s pin pullUp (Or.inl hp)] at h
    exact Except.noConfusion h
  · by_cases hc : env.getPINnCTRLregister (env.digitalPinToPortStruct pin)
        (env.digitalPinToBitPosition pin) = none
    · rw [avr_initDtaGpio_err env s pin pullUp (Or.inr hc)] at h
      exact Except.noConfusion h
    · exact ⟨Option.ne_none_iff_exists'.mp hp,
        Option.ne_none_iff_exists'.mp hc⟩

theorem esp_initDtaGpio_ok (env : ESP32.PinEnv) (s : ESP32.State)
    (pin : Nat) (pullUp : Bool) (t : ESP32.State)
    (h : ESP32.initDtaGpio env s pin pullUp = Except.ok t) :
    t.dtaGpio.modReg &&& t.dtaGpio.bmsk = 0 ∧
    t.dtaPull = pullUp ∧
    t.extPwrCtrl = s.extPwrCtrl ∧
    t.pwrCtrlConfigured = s.pwrCtrlConfigured ∧
    t.pwrCtrlGpio = s.pwrCtrlGpio := by
  simp only [ESP32.initDtaGpio, ESP32.pinModeInput] at h
  split at h
  · simp only [Except.ok.injEq] at h
    subst h
    by_cases h32 : pin < 32 <;>
      simp [h32, ESP32.State.setupDtaGpio, ESP32.DtaGpio.GPIO_AS_INPUT,
        bitClr_land_self]
  · simp at h

theorem esp_initPwrCtrlGpio_ok (env : ESP32.PinEnv) (s : ESP32.State)
    (pin : Nat) (t : ESP32.State)
    (h : ESP32.initPwrCtrlGpio env s pin = Except.ok t) :
    t.dtaGpio = s.dtaGpio ∧ t.dtaPull = s.dtaPull ∧
    t.extPwrCtrl = s.extPwrCtrl ∧ t.pwrCtrlConfigured = true ∧
    t.pwrCtrlGpio.modReg &&& t.pwrCtrlGpio.bmsk = t.pwrCtrlGpio.bmsk := by
  simp only [ESP32.initPwrCtrlGpio] at h
  split at h
  · simp only [Except.ok.injEq] at h
    subst h
    by_cases h32 : pin < 32 <;>
      simp [h32, ESP32.State.setupPwrCtrlGpio, ESP32.PwrGpio.GPIO_AS_OUTPUT,
        lor_land_self]
  · simp at h

theorem esp_initDtaGpio_err (env : ESP32.PinEnv) (s : ESP32.State)
    (pin : Nat) (pullUp : Bool) (hbad : 34 ≤ pin) :
    ESP32.initDtaGpio env s pin pullUp = Except.error () := by
  simp only [ESP32.initDtaGpio]
  rw [if_neg (by omega)]

theorem esp_initDtaGpio_ok_resolved (env : ESP32.PinEnv) (s : ESP32.State)
    (pin : Nat) (pullUp : Bool) (t : ESP32.State)
    (h : ESP32.initDtaGpio env s pin pullUp = Except.ok t) : pin < 34 := by
  by_cases h34 : pin < 34
  · exact h34
  · rw [esp_initDtaGpio_err env s pin pullUp (by omega)] at h
    simp at h

theorem stm_initDtaGpio_ok (env : STM32.PinEnv) (s : STM32.State)
    (pin : Nat) (pullUp : Bool) (t : STM32.State)
    (h : STM32.initDtaGpio env s pin pullUp = Except.ok t) :
    t.dtaGpio.mode = STM32.PinMode.LL_GPIO_MODE_INPUT ∧
    t.dtaGpio.pull = pullUp ∧
    t.extPwrCtrl = s.extPwrCtrl ∧
    t.pwrCtrlConfigured = s.pwrCtrlConfigured ∧
    t.pwrCtrlGpio = s.pwrCtrlGpio := by
  simp only [STM32.initDtaGpio] at h
  split at h
  · simp only [Except.ok.injEq] at h
    subst h
    simp [STM32.State.setupDtaGpio, STM32.pinModeInput,
      STM32.LL_GPIO_SetPinMode]
  · exact Except.noConfusion h

theorem stm_initPwrCtrlGpio_ok (env : STM32.PinEnv) (s : STM32.State)
    (pin : Nat) (t : STM32.State)
    (h : STM32.initPwrCtrlGpio env s pin = Except.ok t) :
    t.dtaGpio = s.dtaGpio ∧
    t.extPwrCtrl = s.extPwrCtrl ∧ t.pwrCtrlConfigured = true ∧
    t.pwrCtrlGpio.mode = STM32.PinMode.LL_GPIO_MODE_OUTPUT := by
  simp only [STM32.initPwrCtrlGpio] at h
  split at h
  · simp only [Except.ok.injEq] at h
    subst h
    simp [STM32.State.setupPwrCtrlGpio, STM32.pinModeOutput,
      STM32.LL_GPIO_SetPinMode]
  · exact Except.noConfusion h

theorem stm_initDtaGpio_err (env : STM32.PinEnv) (s : STM32.State)
    (pin : Nat) (pullUp : Bool) (hbad : env.digitalPinToPinName pin = none) :
    STM32.initDtaGpio env s pin pullUp = Except.error () := by
  simp only [STM32.initDtaGpio]
  rw [hbad]

theorem stm_initDtaGpio_ok_resolved (env : STM32.PinEnv) (s : STM32.State)
    (pin : Nat) (pullUp : Bool) (t : STM32.State)
    (h : STM32.initDtaGpio env s pin pullUp = Except.ok t) :
    ∃ n, env.digitalPinToPinName pin = some n := by
  cases hp : env.digitalPinToPinName pin with
  | none => rw [stm_initDtaGpio_err env s pin pullUp hp] at h; simp at h
  | some n => exact ⟨n, rfl⟩

theorem sam_initDtaGpio_ok (env : SAM.PinEnv) (s : SAM.State)
    (pin : Nat) (pullUp : Bool) (t : SAM.State)
    (h : SAM.initDtaGpio env s pin pullUp = Except.ok t) :
    t.dtaGpio.modReg &&& t.dtaGpio.bmsk = 0 ∧
    t.dtaPull = pullUp ∧
    t.extPwrCtrl = s.extPwrCtrl ∧
    t.pwrCtrlConfigured = s.pwrCtrlConfigured ∧
    t.pwrCtrlGpio = s.pwrCtrlGpio := by
  simp only [SAM.initDtaGpio, SAM.pinModeInput] at h
  split at h
  · simp at h
  · simp only [Except.ok.injEq] at h
    subst h
    simp [SAM.State.setupDtaGpio, SAM.DtaGpio.GPIO_AS_INPUT, bitClr_land_self]

theorem sam_initPwrCtrlGpio_ok (env : SAM.PinEnv) (s : SAM.State)
    (pin : Nat) (t : SAM.State)
    (h : SAM.initPwrCtrlGpio env s pin = Except.ok t) :
    t.dtaGpio = s.dtaGpio ∧ t.dtaPull = s.dtaPull ∧
    t.extPwrCtrl = s.extPwrCtrl ∧ t.pwrCtrlConfigured = true ∧
    t.pwrCtrlGpio.modReg &&& t.pwrCtrlGpio.bmsk = t.pwrCtrlGpio.bmsk := by
  simp only [SAM.initPwrCtrlGpio] at h
  split at h
  · simp at h
  · simp only [Except.ok.injEq] at h
    subst h
    simp [SAM.State.setupPwrCtrlGpio, SAM.PwrGpio.GPIO_AS_OUTPUT,
      lor_land_self]

theorem sam_initDtaGpio_err (env : SAM.PinEnv) (s : SAM.State)
    (pin : Nat) (pullUp : Bool)
    (hbad : (env.g_APinDescription pin).ulPinType =
      SAM.PioType.PIO_NOT_A_PIN) :
    SAM.initDtaGpio env s pin pullUp = Except.error () := by
  simp only [SAM.initDtaGpio]
  rw [if_pos hbad]

theorem sam_initDtaGpio_ok_resolved (env : SAM.PinEnv) (s : SAM.State)
    (pin : Nat) (pullUp : Bool) (t : SAM.State)
    (h : SAM.initDtaGpio env s pin pullUp = Except.ok t) :
    (env.g_APinDescription pin).ulPinType ≠ SAM.PioType.PIO_NOT_A_PIN := by
  intro hbad
  rw [sam_initDtaGpio_err env s pin pullUp hbad] at h
  simp at h

/-- Claim C4: for every platform adapter constructor, after construction
the data line is configured as input (high impedance) and its internal
pull-up resistor is enabled exactly when the constructor's `pullUp`
argument is true (megaAVR: the `PULLUPEN` bit of the pin's `PINnCTRL`
register; the other platforms configure the pull-up through the Arduino
`pinMode` call, modelled from the spec). -/
theorem C4_ctor_input_pullup :
    (∀ env s0 pin pullUp s,
      MegaAVR.ctor2 env s0 pin pullUp = Except.ok s →
      s.dtaGpio.port.DIR &&& s.dtaGpio.bmsk = 0 ∧
      s.dtaCtrl.testBit 3 = pullUp) ∧
    (∀ env s0 pin ppin pullUp s,
      MegaAVR.ctor3 env s0 pin ppin pullUp = Except.ok s →
      s.dtaGpio.port.DIR &&& s.dtaGpio.bmsk = 0 ∧
      s.dtaCtrl.testBit 3 = pullUp) ∧
    (∀ env s0 pin pullUp s,
      ESP32.ctor2 env s0 pin pullUp = Except.ok s →
      s.dtaGpio.modReg &&& s.dtaGpio.bmsk = 0 ∧ s.dtaPull = pullUp) ∧
    (∀ env s0 pin ppin pullUp s,
      ESP32.ctor3 env s0 pin ppin pullUp = Except.ok s →
      s.dtaGpio.modReg &&& s.dtaGpio.bmsk = 0 ∧ s.dtaPull = pullUp) ∧
    (∀ env s0 pin pullUp s,
      STM32.ctor2 env s0 pin pullUp = Except.ok s →
      s.dtaGpio.mode = STM32.PinMode.LL_GPIO_MODE_INPUT ∧
      s.dtaGpio.pull = pullUp) ∧
    (∀ env s0 pin ppin pullUp s,
      STM32.ctor3 env s0 pin ppin pullUp = Except.ok s →
      s.dtaGpio.mode = STM32.PinMode.LL_GPIO_MODE_INPUT ∧
      s.dtaGpio.pull = pullUp) ∧
    (∀ env s0 pin pullUp s,
      SAM.ctor2 env s0 pin pullUp = Except.ok s →
      s.dtaGpio.modReg &&& s.dtaGpio.bmsk = 0 ∧ s.dtaPull = pullUp) ∧
    (∀ env s0 pin ppin pullUp s,
      SAM.ctor3 env s0 pin ppin pullUp = Except.ok s →
      s.dtaGpio.modReg &&& s.dtaGpio.bmsk = 0 ∧ s.dtaPull = pullUp) := by
  refine ⟨?_, ?_, ?_, ?_, ?_, ?_, ?_, ?_⟩
  · intro env s0 pin pullUp s h
    have hd := avr_initDtaGpio_ok _ _ _ _ _ h
    exact ⟨hd.1, hd.2.1⟩
  · intro env s0 pin ppin pullUp s h
    simp only [MegaAVR.ctor3] at h
    split at h
    · rename_i s1 heq
      have hd := avr_initDtaGpio_ok _ _ _ _ _ heq
      have hpw := avr_initPwrCtrlGpio_ok _ _ _ _ h
      rw [hpw.1, hpw.2.1]
      exact ⟨hd.1, hd.2.1⟩
    · simp at h
  · intro env s0 pin pullUp s h
    have hd := esp_initDtaGpio_ok _ _ _ _ _ h
    exact ⟨hd.1, hd.2.1⟩
  · intro env s0 pin ppin pullUp s h
    simp only [ESP32.ctor3] at h
    split at h
    · rename_i s1 heq
      have hd := esp_initDtaGpio_ok _ _ _ _ _ heq
      have hpw := esp_initPwrCtrlGpio_ok _ _ _ _ h
      rw [hpw.1]
      exact ⟨hd.1, hpw.2.1.trans hd.2.1⟩
    · simp at h
  · intro env s0 pin pullUp s h
    have hd := stm_initDtaGpio_ok _ _ _ _ _ h
    exact ⟨hd.1, hd.2.1⟩
  · intro env s0 pin ppin pullUp s h
    simp only [STM32.ctor3] at h
    split at h
    · rename_i s1 heq
      have hd := stm_initDtaGpio_ok _ _ _ _ _ heq
      have hpw := stm_initPwrCtrlGpio_ok _ _ _ _ h
      rw [hpw.1]
      exact ⟨hd.1, hd.2.1⟩
    · simp at h
  · intro env s0 pin pullUp s h
    have hd := sam_initDtaGpio_ok _ _ _ _ _ h
    exact ⟨hd.1, hd.2.1⟩
  · intro env s0 pin ppin pullUp s h
    simp only [SAM.ctor3] at h
    split at h
    · rename_i s1 heq
      have hd := sam_initDtaGpio_ok _ _ _ _ _ heq
      have hpw := sam_initPwrCtrlGpio_ok _ _ _ _ h
      rw [hpw.1]
      exact ⟨hd.1, hpw.2.1.trans hd.2.1⟩
    · simp at h

/-- Witness for C4: the constructors succeed on the concrete sample
environments, and the constructed states satisfy the input and pull-up
configuration properties. -/
theorem C4_ctor_input_pullup_witness :
    (MegaAVR.ctor2 MegaAVR.envOk MegaAVR.sInit 3 true =
        Except.ok MegaAVR.sCtor2 ∧
      MegaAVR.sCtor2.dtaGpio.port.DIR &&& MegaAVR.sCtor2.dtaGpio.bmsk = 0 ∧
      MegaAVR.sCtor2.dtaCtrl.testBit 3 = true) ∧
    (MegaAVR.ctor3 MegaAVR.envOk MegaAVR.sInit 3 5 false =
        Except.ok MegaAVR.sCtor3 ∧
      MegaAVR.sCtor3.dtaGpio.port.DIR &&& MegaAVR.sCtor3.dtaGpio.bmsk = 0 ∧
      MegaAVR.sCtor3.dtaCtrl.testBit 3 = false) ∧
    (ESP32.ctor2 ESP32.envOk ESP32.sInit 5 true = Except.ok ESP32.sCtor2 ∧
      ESP32.sCtor2.dtaGpio.modReg &&& ESP32.sCtor2.dtaGpio.bmsk = 0 ∧
      ESP32.sCtor2.dtaPull = true) ∧
    (ESP32.ctor3 ESP32.envOk ESP32.sInit 33 25 false =
        Except.ok ESP32.sCtor3 ∧
      ESP32.sCtor3.dtaGpio.modReg &&& ESP32.sCtor3.dtaGpio.bmsk = 0 ∧
      ESP32.sCtor3.dtaPull = false) ∧
    (STM32.ctor2 STM32.envOk STM32.sInit 3 true = Except.ok STM32.sCtor2 ∧
      STM32.sCtor2.dtaGpio.mode = STM32.PinMode.LL_GPIO_MODE_INPUT ∧
      STM32.sCtor2.dtaGpio.pull = true) ∧
    (SAM.ctor2 SAM.envOk SAM.sInit 3 true = Except.ok SAM.sCtor2 ∧
      SAM.sCtor2.dtaGpio.modReg &&& SAM.sCtor2.dtaGpio.bmsk = 0 ∧
      SAM.sCtor2.dtaPull = true) :=
  ⟨⟨rfl, C4_ctor_input_pullup.1 MegaAVR.envOk MegaAVR.sInit 3 true
      MegaAVR.sCtor2 rfl⟩,
   ⟨rfl, C4_ctor_input_pullup.2.1 MegaAVR.envOk MegaAVR.sInit 3 5 false
      MegaAVR.sCtor3 rfl⟩,
   ⟨rfl, C4_ctor_input_pullup.2.2.1 ESP32.envOk ESP32.sInit 5 true
      ESP32.sCtor2 rfl⟩,
   ⟨rfl, C4_ctor_input_pullup.2.2.2.1 ESP32.envOk ESP32.sInit 33 25 false
      ESP32.sCtor3 rfl⟩,
   ⟨rfl, C4_ctor_input_pullup.2.2.2.2.1 STM32.envOk STM32.sInit 3 true
      STM32.sCtor2 rfl⟩,
   ⟨rfl, C4_ctor_input_pullup.2.2.2.2.2.2.1 SAM.envOk SAM.sInit 3 true
      SAM.sCtor2 rfl⟩⟩

/-- Claim C5: for every platform adapter, constructing with a pin that
does not resolve to a valid GPIO line (a NULL port or control register on
megaAVR, an out-of-range pin number on ESP32, a not-connected pin name on
STM32, a non-pin descriptor on SAM) fails fatally at construction via the
assertion, modelled as `Except.error` — produced before any register
write, mirroring the source order in which the assert precedes all GPIO
accesses — and construction never completes with an unresolved line. -/
theorem C5_invalid_pin_asserts :
    (∀ (env : MegaAVR.PinEnv) s0 pin pullUp,
      ((env.digitalPinToPortStruct pin = none ∨
        env.getPINnCTRLregister (env.digitalPinToPortStruct pin)
          (env.digitalPinToBitPosition pin) = none) →
        MegaAVR.ctor2 env s0 pin pullUp = Except.error ()) ∧
      (∀ s, MegaAVR.ctor2 env s0 pin pullUp = Except.ok s →
        (∃ port, env.digitalPinToPortStruct pin = some port) ∧
        (∃ c, env.getPINnCTRLregister (env.digitalPinToPortStruct pin)
          (env.digitalPinToBitPosition pin) = some c))) ∧
    (∀ (env : ESP32.PinEnv) s0 pin pullUp,
      (34 ≤ pin → ESP32.ctor2 env s0 pin pullUp = Except.error ()) ∧
      (∀ s, ESP32.ctor2 env s0 pin pullUp = Except.ok s → pin < 34)) ∧
    (∀ (env : STM32.PinEnv) s0 pin pullUp,
      (env.digitalPinToPinName pin = none →
        STM32.ctor2 env s0 pin pullUp = Except.error ()) ∧
      (∀ s, STM32.ctor2 env s0 pin pullUp = Except.ok s →
        ∃ n, env.digitalPinToPinName pin = some n)) ∧
    (∀ (env : SAM.PinEnv) s0 pin pullUp,
      ((env.g_APinDescription pin).ulPinType = SAM.PioType.PIO_NOT_A_PIN →
        SAM.ctor2 env s0 pin pullUp = Except.error ()) ∧
      (∀ s, SAM.ctor2 env s0 pin pullUp = Except.ok s →
        (env.g_APinDescription pin).ulPinType ≠
          SAM.PioType.PIO_NOT_A_PIN)) := by
  refine ⟨?_, ?_, ?_, ?_⟩
  · intro env s0 pin pullUp
    exact ⟨fun hbad => avr_initDtaGpio_err env _ pin pullUp hbad,
      fun s h => avr_initDtaGpio_ok_resolved env _ pin pullUp s h⟩
  · intro env s0 pin pullUp
    exact ⟨fun hbad => esp_initDtaGpio_err env _ pin pullUp hbad,
      fun s h => esp_initDtaGpio_ok_resolved env _ pin pullUp s h⟩
  · intro env s0 pin pullUp
    exact ⟨fun hbad => stm_initDtaGpio_err env _ pin pullUp hbad,
      fun s h => stm_initDtaGpio_ok_resolved env _ pin pullUp s h⟩
  · intro env s0 pin pullUp
    exact ⟨fun hbad => sam_initDtaGpio_err env _ pin pullUp hbad,
      fun s h => sam_initDtaGpio_ok_resolved env _ pin pullUp s h⟩

/-- Witness for C5: on the concrete non-resolving sample environments
(and the out-of-range ESP32 pin 40) construction fails with the modelled
assertion error, for all four adapters. -/
theorem C5_invalid_pin_asserts_witness :
    (MegaAVR.envBad.digitalPinToPortStruct 3 = none ∧
      MegaAVR.ctor2 MegaAVR.envBad MegaAVR.sInit 3 true =
        Except.error ()) ∧
    ((34 : Nat) ≤ 40 ∧
      ESP32.ctor2 ESP32.envOk ESP32.sInit 40 true = Except.error ()) ∧
    (STM32.envBad.digitalPinToPinName 3 = none ∧
      STM32.ctor2 STM32.envBad STM32.sInit 3 true = Except.error ()) ∧
    ((SAM.envBad.g_APinDescription 3).ulPinType =
        SAM.PioType.PIO_NOT_A_PIN ∧
      SAM.ctor2 SAM.envBad SAM.sInit 3 true = Except.error ()) :=
  ⟨⟨rfl, (C5_invalid_pin_asserts.1 MegaAVR.envBad MegaAVR.sInit 3 true).1
      (Or.inl rfl)⟩,
   ⟨by decide, (C5_invalid_pin_asserts.2.1 ESP32.envOk ESP32.sInit 40
      true).1 (by decide)⟩,
   ⟨rfl, (C5_invalid_pin_asserts.2.2.1 STM32.envBad STM32.sInit 3 true).1
      rfl⟩,
   ⟨rfl, (C5_invalid_pin_asserts.2.2.2 SAM.envBad SAM.sInit 3 true).1
      rfl⟩⟩

/-- Claim C6: for every platform adapter, the two-argument (data pin
only) constructor passes `false` to the base engine and ends with no
power-control line configured, while the three-argument constructor
passes `true` and additionally leaves the power-control pin configured
as an output line; in both cases the availability flag handed to the
base equals whether a power-control line was configured. -/
theorem C6_pwr_availability_flag :
    (∀ env s0 pin pullUp s,
      MegaAVR.ctor2 env s0 pin pullUp = Except.ok s →
      s.extPwrCtrl = false ∧ s.pwrCtrlConfigured = false ∧
      s.extPwrCtrl = s.pwrCtrlConfigured) ∧
    (∀ env s0 pin ppin pullUp s,
      MegaAVR.ctor3 env s0 pin ppin pullUp = Except.ok s →
      s.extPwrCtrl = true ∧ s.pwrCtrlConfigured = true ∧
      s.extPwrCtrl = s.pwrCtrlConfigured ∧
      s.pwrCtrlGpio.port.DIR &&& s.pwrCtrlGpio.bmsk = s.pwrCtrlGpio.bmsk) ∧
    (∀ env s0 pin pullUp s,
      ESP32.ctor2 env s0 pin pullUp = Except.ok s →
      s.extPwrCtrl = false ∧ s.pwrCtrlConfigured = false ∧
      s.extPwrCtrl = s.pwrCtrlConfigured) ∧
    (∀ env s0 pin ppin pullUp s,
      ESP32.ctor3 env s0 pin ppin pullUp = Except.ok s →
      s.extPwrCtrl = true ∧ s.pwrCtrlConfigured = true ∧
      s.extPwrCtrl = s.pwrCtrlConfigured ∧
      s.pwrCtrlGpio.modReg &&& s.pwrCtrlGpio.bmsk = s.pwrCtrlGpio.bmsk) ∧
    (∀ env s0 pin pullUp s,
      STM32.ctor2 env s0 pin pullUp = Except.ok s →
      s.extPwrCtrl = false ∧ s.pwrCtrlConfigured = false ∧
      s.extPwrCtrl = s.pwrCtrlConfigured) ∧
    (∀ env s0 pin ppin pullUp s,
      STM32.ctor3 env s0 pin ppin pullUp = Except.ok s →
      s.extPwrCtrl = true ∧ s.pwrCtrlConfigured = true ∧
      s.extPwrCtrl = s.pwrCtrlConfigured ∧
      s.pwrCtrlGpio.mode = STM32.PinMode.LL_GPIO_MODE_OUTPUT) ∧
    (∀ env s0 pin pullUp s,
      SAM.ctor2 env s0 pin pullUp = Except.ok s →
      s.extPwrCtrl = false ∧ s.pwrCtrlConfigured = false ∧
      s.extPwrCtrl = s.pwrCtrlConfigured) ∧
    (∀ env s0 pin ppin pullUp s,
      SAM.ctor3 env s0 pin ppin pullUp = Except.ok s →
      s.extPwrCtrl = true ∧ s.pwrCtrlConfigured = true ∧
      s.extPwrCtrl = s.pwrCtrlConfigured ∧
      s.pwrCtrlGpio.modReg &&& s.pwrCtrlGpio.bmsk = s.pwrCtrlGpio.bmsk) := by
  refine ⟨?_, ?_, ?_, ?_, ?_, ?_, ?_, ?_⟩
  · intro env s0 pin pullUp s h
    have hd := avr_initDtaGpio_ok _ _ _ _ _ h
    rw [hd.2.2.1, hd.2.2.2.1]
    exact ⟨rfl, rfl, rfl⟩
  · intro env s0 pin ppin pullUp s h
    simp only [MegaAVR.ctor3] at h
    split at h
    · rename_i s1 heq
      have hd := avr_initDtaGpio_ok _ _ _ _ _ heq
      have hpw := avr_initPwrCtrlGpio_ok _ _ _ _ h
      rw [hpw.2.2.1, hd.2.2.1, hpw.2.2.2.1]
      exact ⟨rfl, rfl, rfl, hpw.2.2.2.2⟩
    · simp at h
  · intro env s0 pin pullUp s h
    have hd := esp_initDtaGpio_ok _ _ _ _ _ h
    rw [hd.2.2.1, hd.2.2.2.1]
    exact ⟨rfl, rfl, rfl⟩
  · intro env s0 pin ppin pullUp s h
    simp only [ESP32.ctor3] at h
    split at h
    · rename_i s1 heq
      have hd := esp_initDtaGpio_ok _ _ _ _ _ heq
      have hpw := esp_initPwrCtrlGpio_ok _ _ _ _ h
      rw [hpw.2.2.1, hd.2.2.1, hpw.2.2.2.1]
      exact ⟨rfl, rfl, rfl, hpw.2.2.2.2⟩
    · simp at h
  · intro env s0 pin pullUp s h
    have hd := stm_initDtaGpio_ok _ _ _ _ _ h
    rw [hd.2.2.1, hd.2.2.2.1]
    exact ⟨rfl, rfl, rfl⟩
  · intro env s0 pin ppin pullUp s h
    simp only [STM32.ctor3] at h
    split at h
    · rename_i s1 heq
      have hd := stm_initDtaGpio_ok _ _ _ _ _ heq
      have hpw := stm_initPwrCtrlGpio_ok _ _ _ _ h
      rw [hpw.2.1, hd.2.2.1, hpw.2.2.1]
      exact ⟨rfl, rfl, rfl, hpw.2.2.2⟩
    · simp at h
  · intro env s0 pin pullUp s h
    have hd := sam_initDtaGpio_ok _ _ _ _ _ h
    rw [hd.2.2.1, hd.2.2.2.1]
    exact ⟨rfl, rfl, rfl⟩
  · intro env s0 pin ppin pullUp s h
    simp only [SAM.ctor3] at h
    split at h
    · rename_i s1 heq
      have hd := sam_initDtaGpio_ok _ _ _ _ _ heq
      have hpw := sam_initPwrCtrlGpio_ok _ _ _ _ h
      rw [hpw.2.2.1, hd.2.2.1, hpw.2.2.2.1]
      exact ⟨rfl, rfl, rfl, hpw.2.2.2.2⟩
    · simp at h

/-- Witness for C6: the two- and three-argument constructors succeed on
the concrete sample environments, and the availability flag of the
constructed states matches the power-control configuration. -/
theorem C6_pwr_availability_flag_witness :
    (MegaAVR.ctor2 MegaAVR.envOk MegaAVR.sInit 3 true =
        Except.ok MegaAVR.sCtor2 ∧
      MegaAVR.sCtor2.extPwrCtrl = false ∧
      MegaAVR.sCtor2.pwrCtrlConfigured = false ∧
      MegaAVR.sCtor2.extPwrCtrl = MegaAVR.sCtor2.pwrCtrlConfigured) ∧
    (MegaAVR.ctor3 MegaAVR.envOk MegaAVR.sInit 3 5 false =
        Except.ok MegaAVR.sCtor3 ∧
      MegaAVR.sCtor3.extPwrCtrl = true ∧
      MegaAVR.sCtor3.pwrCtrlConfigured = true ∧
      MegaAVR.sCtor3.extPwrCtrl = MegaAVR.sCtor3.pwrCtrlConfigured ∧
      MegaAVR.sCtor3.pwrCtrlGpio.port.DIR &&&
        MegaAVR.sCtor3.pwrCtrlGpio.bmsk = MegaAVR.sCtor3.pwrCtrlGpio.bmsk) ∧
    (ESP32.ctor3 ESP32.envOk ESP32.sInit 33 25 false =
        Except.ok ESP32.sCtor3 ∧
      ESP32.sCtor3.extPwrCtrl = true ∧
      ESP32.sCtor3.pwrCtrlConfigured = true ∧
      ESP32.sCtor3.extPwrCtrl = ESP32.sCtor3.pwrCtrlConfigured ∧
      ESP32.sCtor3.pwrCtrlGpio.modReg &&& ESP32.sCtor3.pwrCtrlGpio.bmsk =
        ESP32.sCtor3.pwrCtrlGpio.bmsk) ∧
    (STM32.ctor3 STM32.envOk STM32.sInit 3 5 false =
        Except.ok STM32.sCtor3 ∧
      STM32.sCtor3.extPwrCtrl = true ∧
      STM32.sCtor3.pwrCtrlConfigured = true ∧
      STM32.sCtor3.extPwrCtrl = STM32.sCtor3.pwrCtrlConfigured ∧
      STM32.sCtor3.pwrCtrlGpio.mode = STM32.PinMode.LL_GPIO_MODE_OUTPUT) ∧
    (SAM.ctor3 SAM.envOk SAM.sInit 3 5 false = Except.ok SAM.sCtor3 ∧
      SAM.sCtor3.extPwrCtrl = true ∧
      SAM.sCtor3.pwrCtrlConfigured = true ∧
      SAM.sCtor3.extPwrCtrl = SAM.sCtor3.pwrCtrlConfigured ∧
      SAM.sCtor3.pwrCtrlGpio.modReg &&& SAM.sCtor3.pwrCtrlGpio.bmsk =
        SAM.sCtor3.pwrCtrlGpio.bmsk) :=
  ⟨⟨rfl, C6_pwr_availability_flag.1 MegaAVR.envOk MegaAVR.sInit 3 true
      MegaAVR.sCtor2 rfl⟩,
   ⟨rfl, C6_pwr_availability_flag.2.1 MegaAVR.envOk MegaAVR.sInit 3 5 false
      MegaAVR.sCtor3 rfl⟩,
   ⟨rfl, C6_pwr_availability_flag.2.2.2.1 ESP32.envOk ESP32.sInit 33 25
      false ESP32.sCtor3 rfl⟩,
   ⟨rfl, C6_pwr_availability_flag.2.2.2.2.2.1 STM32.envOk STM32.sInit 3 5
      false STM32.sCtor3 rfl⟩,
   ⟨rfl, C6_pwr_availability_flag.2.2.2.2.2.2.2 SAM.envOk SAM.sInit 3 5
      false SAM.sCtor3 rfl⟩⟩

end OneWireNg
